import Mathlib

/-!
Verification development for the Venalabs Stellar SDK API core:
the error taxonomy (src/api/errors.ts), the retrying transport primitive
(src/api/fetchWithRetry.ts), and the authenticated API client with its
token cache/refresh coordinator (src/api/VenalabsApiClient.ts).

The embedding is shallow: TypeScript values become Lean structures,
the asynchronous control flow of one logical call becomes explicit
state passing, and the outside world (the injected token provider and
the HTTP fetch) is a parameter of every operation.
-/

/-! ## Error taxonomy (src/api/errors.ts) -/

/-- Closed set of error codes of the VenalabsErrorCodes constant. -/
inductive VenalabsErrorCode where
  | INVALID_API_KEY
  | INVALID_TOKEN
  | TOKEN_EXPIRED
  | NOT_FOUND
  | NETWORK_ERROR
  | RATE_LIMITED
  | TIMEOUT
  | SERVER_ERROR
  | UNKNOWN
deriving DecidableEq

/-- Parsed JSON body as consumed by the client.  The fields code/typ/message
model the wire error-body shape (typ stands for the source field named
with the Lean keyword); data models the identity of the rest of the
document for success payloads. -/
structure JsonBody where
  code : Option Nat
  typ : Option String
  message : Option String
  data : String
deriving DecidableEq

/-- Error record of the VenalabsApiError class: a (code, status, message)
triple, never mutated after construction. -/
structure VenalabsApiError where
  code : VenalabsErrorCode
  status : Nat
  message : String
deriving DecidableEq

/-- JavaScript string disjunction m || d: the empty string is falsy, so it
selects the default. -/
def jsOr (m : Option String) (d : String) : String :=
  match m with
  | some s => if s = "" then d else s
  | none => d

/-- Embedding of VenalabsApiError.isAuthError. -/
def VenalabsApiError.isAuthError (e : VenalabsApiError) : Bool :=
  e.code = VenalabsErrorCode.INVALID_API_KEY ||
  e.code = VenalabsErrorCode.INVALID_TOKEN ||
  e.code = VenalabsErrorCode.TOKEN_EXPIRED

/-- Embedding of VenalabsApiError.isRetryable. -/
def VenalabsApiError.isRetryable (e : VenalabsApiError) : Bool :=
  e.code = VenalabsErrorCode.NETWORK_ERROR ||
  e.code = VenalabsErrorCode.TIMEOUT ||
  e.code = VenalabsErrorCode.SERVER_ERROR ||
  e.code = VenalabsErrorCode.RATE_LIMITED

/-- Embedding of VenalabsApiError.fromResponse: maps an HTTP status plus the
optional parsed body to an error record, following the switch statement of
the source (the TS switch on 401/403/404/429 and the default branch that
distinguishes status >= 500 from the rest). -/
def VenalabsApiError.fromResponse (status : Nat) (body : Option JsonBody) :
    VenalabsApiError :=
  if status = 401 then
    ⟨if body.bind JsonBody.typ = some "TOKEN_EXPIRED" then
        VenalabsErrorCode.TOKEN_EXPIRED
      else VenalabsErrorCode.INVALID_TOKEN,
      status, jsOr (body.bind JsonBody.message) "Authentication failed"⟩
  else if status = 403 then
    ⟨VenalabsErrorCode.INVALID_API_KEY, status,
      jsOr (body.bind JsonBody.message) "Invalid API key"⟩
  else if status = 404 then
    ⟨VenalabsErrorCode.NOT_FOUND, status,
      jsOr (body.bind JsonBody.message) "Resource not found"⟩
  else if status = 429 then
    ⟨VenalabsErrorCode.RATE_LIMITED, status,
      jsOr (body.bind JsonBody.message) "Too many requests"⟩
  else if 500 ≤ status then
    ⟨VenalabsErrorCode.SERVER_ERROR, status,
      jsOr (body.bind JsonBody.message) "Server error"⟩
  else
    ⟨VenalabsErrorCode.UNKNOWN, status,
      jsOr (body.bind JsonBody.message)
        ("Request failed with status " ++ toString status)⟩

/-- Embedding of VenalabsApiError.fromNetworkError (msg is the message of the
underlying Error object). -/
def VenalabsApiError.fromNetworkError (msg : String) : VenalabsApiError :=
  ⟨VenalabsErrorCode.NETWORK_ERROR, 0, "Network error: " ++ msg⟩

/-- Embedding of VenalabsApiError.fromTimeout. -/
def VenalabsApiError.fromTimeout (timeoutMs : Nat) : VenalabsApiError :=
  ⟨VenalabsErrorCode.TIMEOUT, 0,
    "Request timed out after " ++ toString timeoutMs ++ "ms"⟩

/-! ## Transport primitive (src/api/fetchWithRetry.ts) -/

/-- One HTTP response as observed by the client: status, the content-length
header, and the body (none when the body is empty or not valid JSON, in
which case response.json() rejects). -/
structure Response where
  status : Nat
  contentLength : Option String
  jsonBody : Option JsonBody
deriving DecidableEq

/-- The fetch API's Response.ok: status in the 2xx range. -/
def Response.ok (r : Response) : Bool :=
  200 ≤ r.status && r.status ≤ 299

/-- Outcome of one attempt of the platform fetch: a response, an AbortError
raised by the timeout controller, or a thrown network error. -/
inductive AttemptOutcome where
  | response (r : Response)
  | abortTimeout
  | networkError (msg : String)
deriving DecidableEq

/-- Embedding of isRetryableStatus: retry on 5xx and on 429. -/
def isRetryableStatus (status : Nat) : Bool :=
  500 ≤ status || status == 429

/-- Options record of fetchWithRetry; missing fields take the defaults. -/
structure FetchWithRetryOptions where
  retries : Option Nat
  retryDelay : Option Nat
  timeout : Option Nat
deriving DecidableEq

/-- Fully resolved options. -/
structure ResolvedFetchOptions where
  retries : Nat
  retryDelay : Nat
  timeout : Nat
deriving DecidableEq

/-- Embedding of DEFAULT_OPTIONS. -/
def DEFAULT_OPTIONS : ResolvedFetchOptions := ⟨1, 2000, 30000⟩

/-- The spread merge of DEFAULT_OPTIONS with the caller's options. -/
def resolveOptions (o : FetchWithRetryOptions) : ResolvedFetchOptions :=
  ⟨o.retries.getD DEFAULT_OPTIONS.retries,
    o.retryDelay.getD DEFAULT_OPTIONS.retryDelay,
    o.timeout.getD DEFAULT_OPTIONS.timeout⟩

/-- Errors thrown out of the client layers: a VenalabsApiError, a plain
Error (validation, JSON parse failure, the unreachable fetch fallback), or
an opaque rejection of the injected token provider. -/
inductive ClientError where
  | api (e : VenalabsApiError)
  | plain (msg : String)
  | provider (msg : String)
deriving DecidableEq

instance {ε α : Type} [DecidableEq ε] [DecidableEq α] :
    DecidableEq (Except ε α) := fun a b =>
  match a, b with
  | Except.ok x, Except.ok y =>
    if h : x = y then isTrue (by rw [h]) else isFalse (by simp [h])
  | Except.error x, Except.error y =>
    if h : x = y then isTrue (by rw [h]) else isFalse (by simp [h])
  | Except.ok _, Except.error _ => isFalse (by simp)
  | Except.error _, Except.ok _ => isFalse (by simp)

/-- Trace of one fetchWithRetry invocation: the returned response or thrown
error, the number of attempts issued, and the sleeps performed between
attempts. -/
structure FetchTrace where
  result : Except ClientError Response
  attemptsMade : Nat
  sleeps : List Nat
deriving DecidableEq

/-- The while loop of fetchWithRetry.  world gives the outcome of the
attempt with the given index; remaining is attemptsRemaining.  Each branch
mirrors the source: a response that is ok or has a non-retryable status is
returned at once; a retryable status is retried while attempts remain and
otherwise the last response is returned; an AbortError becomes the timeout
error and a thrown network error the network error, each retried the same
way and thrown once attempts are exhausted. -/
def fetchLoop (world : Nat → AttemptOutcome) (retryDelay timeout : Nat) :
    Nat → Nat → FetchTrace
  | _, 0 => ⟨Except.error (ClientError.plain "Unknown fetch error"), 0, []⟩
  | idx, r + 1 =>
    match world idx with
    | AttemptOutcome.response resp =>
      if resp.ok || !isRetryableStatus resp.status then
        ⟨Except.ok resp, 1, []⟩
      else if r = 0 then
        ⟨Except.ok resp, 1, []⟩
      else
        let rest := fetchLoop world retryDelay timeout (idx + 1) r
        ⟨rest.result, rest.attemptsMade + 1, retryDelay :: rest.sleeps⟩
    | AttemptOutcome.abortTimeout =>
      if r = 0 then
        ⟨Except.error (ClientError.api (VenalabsApiError.fromTimeout timeout)),
          1, []⟩
      else
        let rest := fetchLoop world retryDelay timeout (idx + 1) r
        ⟨rest.result, rest.attemptsMade + 1, retryDelay :: rest.sleeps⟩
    | AttemptOutcome.networkError msg =>
      if r = 0 then
        ⟨Except.error
            (ClientError.api (VenalabsApiError.fromNetworkError msg)), 1, []⟩
      else
        let rest := fetchLoop world retryDelay timeout (idx + 1) r
        ⟨rest.result, rest.attemptsMade + 1, retryDelay :: rest.sleeps⟩

/-- Embedding of fetchWithRetry: resolve the options and run the loop with
retries + 1 attempts, starting at attempt index startIdx. -/
def fetchWithRetry (world : Nat → AttemptOutcome)
    (retryOptions : FetchWithRetryOptions) (startIdx : Nat) : FetchTrace :=
  let o := resolveOptions retryOptions
  fetchLoop world o.retryDelay o.timeout startIdx (o.retries + 1)

/-- An attempt outcome that makes the loop consume an attempt and move on:
a retryable non-ok response, an abort, or a network error. -/
def retryCausing : AttemptOutcome → Bool
  | AttemptOutcome.response r => !(r.ok || !isRetryableStatus r.status)
  | AttemptOutcome.abortTimeout => true
  | AttemptOutcome.networkError _ => true

/-! ## Token cache/refresh coordinator (VenalabsApiClient token fields) -/

/-- Token state of one client instance: the cachedToken field, the
tokenPromise field (modelled as the id of the pending promise, none when
null), a counter supplying fresh promise ids, and the number of provider
invocations made so far. -/
structure TokenState where
  cachedToken : Option String
  pendingId : Option Nat
  nextId : Nat
  providerCalls : Nat
deriving DecidableEq

/-- State of a freshly constructed client. -/
def initialTokenState : TokenState := ⟨none, none, 0, 0⟩

/-- What a getToken caller ends up waiting on: the cached value returned
synchronously, or the pending refresh promise with the given id. -/
inductive GetTokenWait where
  | cached (t : String)
  | awaitP (id : Nat)
deriving DecidableEq

/-- JavaScript string truthiness, as used by the if (this.cachedToken) and
argument-validation checks: only the empty string is falsy. -/
def truthyStr (s : String) : Bool := s ≠ ""

/-- Synchronous prefix of refreshToken: if tokenPromise is set, join it;
otherwise invoke the provider (synchronously, while building the promise
chain) and store the new pending promise.  Returns the id of the promise
the caller awaits. -/
def refreshTokenEnter (s : TokenState) : TokenState × Nat :=
  match s.pendingId with
  | some id => (s, id)
  | none =>
    (⟨s.cachedToken, some s.nextId, s.nextId + 1, s.providerCalls + 1⟩,
      s.nextId)

/-- Synchronous prefix of getToken: return the cached token when it is
truthy, otherwise fall through to refreshToken.  This segment contains no
await, so concurrent getToken calls execute it atomically in some order. -/
def getTokenEnter (s : TokenState) : TokenState × GetTokenWait :=
  match s.cachedToken with
  | some t =>
    if truthyStr t then (s, GetTokenWait.cached t)
    else
      let p := refreshTokenEnter s
      (p.1, GetTokenWait.awaitP p.2)
  | none =>
    let p := refreshTokenEnter s
    (p.1, GetTokenWait.awaitP p.2)

/-- Settlement of the pending provider promise with a token: the then
handler caches the token and clears tokenPromise (last-write-wins, also
after an intervening clearToken). -/
def resolveToken (s : TokenState) (t : String) : TokenState :=
  ⟨some t, none, s.nextId, s.providerCalls⟩

/-- Settlement of the pending provider promise with a rejection: the catch
handler clears tokenPromise and leaves the cache untouched. -/
def rejectToken (s : TokenState) : TokenState :=
  ⟨s.cachedToken, none, s.nextId, s.providerCalls⟩

/-- Embedding of clearToken: drop the cached credential. -/
def clearToken (s : TokenState) : TokenState :=
  ⟨none, s.pendingId, s.nextId, s.providerCalls⟩

/-- The synchronous prefixes of n concurrent getToken calls, run in program
order; returns the final state and what each caller awaits. -/
def runGetTokens (s : TokenState) : Nat → TokenState × List GetTokenWait
  | 0 => (s, [])
  | n + 1 =>
    let p := getTokenEnter s
    let rest := runGetTokens p.1 n
    (rest.1, p.2 :: rest.2)

/-- Sequential execution of one getToken call: the caller's await resumes
only after the provider promise settles, so the enter segment and the
settlement compose directly.  provider gives the result of the i-th
provider invocation (0-based).  Sound for states with no pending promise,
which is the case everywhere inside one sequential logical call. -/
def getToken (provider : Nat → Except String String) (s : TokenState) :
    TokenState × Except String String :=
  match getTokenEnter s with
  | (s1, GetTokenWait.cached t) => (s1, Except.ok t)
  | (s1, GetTokenWait.awaitP _) =>
    match provider s.providerCalls with
    | Except.ok t => (resolveToken s1 t, Except.ok t)
    | Except.error e => (rejectToken s1, Except.error e)

/-- Sequential execution of one refreshToken call, as invoked directly by
the 401 recovery path. -/
def refreshToken (provider : Nat → Except String String) (s : TokenState) :
    TokenState × Except String String :=
  let p := refreshTokenEnter s
  match provider s.providerCalls with
  | Except.ok t => (resolveToken p.1 t, Except.ok t)
  | Except.error e => (rejectToken p.1, Except.error e)

/-! ## API client (src/api/VenalabsApiClient.ts) -/

/-- Configuration retained by the constructor (after its validation). -/
structure ClientConfig where
  apiKey : String
  baseUrl : String
  timeout : Nat
deriving DecidableEq

/-- One HTTP request envelope: method, url, headers and optional
serialized body.  Retried requests reuse the same envelope except for the
freshly built headers. -/
structure HttpRequest where
  method : String
  url : String
  headers : List (String × String)
  body : Option String
deriving DecidableEq

/-- The header list built by getHeaders for a given token. -/
def stdHeaders (apiKey token : String) : List (String × String) :=
  [("Content-Type", "application/json"),
   ("X-Api-Key", apiKey),
   ("Authorization", "Bearer " ++ token)]

/-- Embedding of getHeaders: await getToken and build the three headers. -/
def getHeaders (apiKey : String) (provider : Nat → Except String String)
    (s : TokenState) : TokenState × Except String (List (String × String)) :=
  match getToken provider s with
  | (s1, Except.ok t) => (s1, Except.ok (stdHeaders apiKey t))
  | (s1, Except.error e) => (s1, Except.error e)

/-- Embedding of getRetryOptions: timeout from the config, retries 1,
retryDelay 2000. -/
def getRetryOptions (cfg : ClientConfig) : FetchWithRetryOptions :=
  ⟨some 1, some 2000, some cfg.timeout⟩

/-- Outcome of the header-building plus fetchWithRetry phase shared by the
get and post helpers. -/
structure FetchPhase where
  state : TokenState
  attempts : Nat
  requests : List HttpRequest
  outcome : Except ClientError Response
deriving DecidableEq

/-- Build headers and run fetchWithRetry once, as both helpers do before
their status handling.  http gives the outcome of the HTTP attempt with a
given global index for a given request; idx is the index of the next
attempt. -/
def clientFetch (method : String) (cfg : ClientConfig)
    (provider : Nat → Except String String)
    (http : Nat → HttpRequest → AttemptOutcome) (url : String)
    (body : Option String) (s : TokenState) (idx : Nat) : FetchPhase :=
  match getHeaders cfg.apiKey provider s with
  | (s1, Except.error e) => ⟨s1, 0, [], Except.error (ClientError.provider e)⟩
  | (s1, Except.ok hs) =>
    let req : HttpRequest := ⟨method, url, hs, body⟩
    let tr := fetchWithRetry (fun i => http i req) (getRetryOptions cfg) idx
    ⟨s1, tr.attemptsMade, [req], tr.result⟩

/-- Response body as recovered by response.json().catch of the error path:
the parsed body, or the empty object when parsing fails. -/
def parseJsonOrEmpty (r : Response) : JsonBody :=
  r.jsonBody.getD ⟨none, none, none, ""⟩

/-- Epilogue of the get helper on a response that is not handled by the 401
branch: throw the classified error on non-ok, otherwise return
response.json() (which rejects when the body is not valid JSON). -/
def finishGet (r : Response) : Except ClientError (Option JsonBody) :=
  if !r.ok then
    Except.error (ClientError.api
      (VenalabsApiError.fromResponse r.status (some (parseJsonOrEmpty r))))
  else
    match r.jsonBody with
    | some j => Except.ok (some j)
    | none => Except.error (ClientError.plain "JSON parse error")

/-- Epilogue of the post helper: same as the get epilogue, except that a
204 status or a content-length of "0" resolves to undefined without
touching the body. -/
def finishPost (r : Response) : Except ClientError (Option JsonBody) :=
  if !r.ok then
    Except.error (ClientError.api
      (VenalabsApiError.fromResponse r.status (some (parseJsonOrEmpty r))))
  else if r.status == 204 || r.contentLength == some "0" then
    Except.ok none
  else
    match r.jsonBody with
    | some j => Except.ok (some j)
    | none => Except.error (ClientError.plain "JSON parse error")

/-- Trace of one logical client call: the resolved value (none models an
undefined or null result), the final token state, the HTTP attempts
consumed, and the request envelopes issued. -/
structure ClientTrace where
  result : Except ClientError (Option JsonBody)
  state : TokenState
  attempts : Nat
  requests : List HttpRequest
deriving DecidableEq

/-- The get helper with isRetry = true: the 401 branch is skipped, so a 401
falls through to the error epilogue. -/
def clientGetRetry (cfg : ClientConfig)
    (provider : Nat → Except String String)
    (http : Nat → HttpRequest → AttemptOutcome) (url : String)
    (s : TokenState) (idx : Nat) : ClientTrace :=
  let ph := clientFetch "GET" cfg provider http url none s idx
  match ph.outcome with
  | Except.error e => ⟨Except.error e, ph.state, ph.attempts, ph.requests⟩
  | Except.ok r => ⟨finishGet r, ph.state, ph.attempts, ph.requests⟩

/-- The get helper as called by the operations (isRetry = false): on a 401
response, clear the cached token, force one refresh, and re-issue the same
request once with isRetry = true. -/
def clientGet (cfg : ClientConfig) (provider : Nat → Except String String)
    (http : Nat → HttpRequest → AttemptOutcome) (url : String)
    (s : TokenState) (idx : Nat) : ClientTrace :=
  let ph := clientFetch "GET" cfg provider http url none s idx
  match ph.outcome with
  | Except.error e => ⟨Except.error e, ph.state, ph.attempts, ph.requests⟩
  | Except.ok r =>
    if r.status == 401 then
      match refreshToken provider (clearToken ph.state) with
      | (s3, Except.error e) =>
        ⟨Except.error (ClientError.provider e), s3, ph.attempts, ph.requests⟩
      | (s3, Except.ok _) =>
        let t2 := clientGetRetry cfg provider http url s3 (idx + ph.attempts)
        ⟨t2.result, t2.state, ph.attempts + t2.attempts,
          ph.requests ++ t2.requests⟩
    else ⟨finishGet r, ph.state, ph.attempts, ph.requests⟩

/-- The post helper with isRetry = true. -/
def clientPostRetry (cfg : ClientConfig)
    (provider : Nat → Except String String)
    (http : Nat → HttpRequest → AttemptOutcome) (url : String)
    (body : Option String) (s : TokenState) (idx : Nat) : ClientTrace :=
  let ph := clientFetch "POST" cfg provider http url body s idx
  match ph.outcome with
  | Except.error e => ⟨Except.error e, ph.state, ph.attempts, ph.requests⟩
  | Except.ok r => ⟨finishPost r, ph.state, ph.attempts, ph.requests⟩

/-- The post helper as called by the operations (isRetry = false). -/
def clientPost (cfg : ClientConfig) (provider : Nat → Except String String)
    (http : Nat → HttpRequest → AttemptOutcome) (url : String)
    (body : Option String) (s : TokenState) (idx : Nat) : ClientTrace :=
  let ph := clientFetch "POST" cfg provider http url body s idx
  match ph.outcome with
  | Except.error e => ⟨Except.error e, ph.state, ph.attempts, ph.requests⟩
  | Except.ok r =>
    if r.status == 401 then
      match refreshToken provider (clearToken ph.state) with
      | (s3, Except.error e) =>
        ⟨Except.error (ClientError.provider e), s3, ph.attempts, ph.requests⟩
      | (s3, Except.ok _) =>
        let t2 := clientPostRetry cfg provider http url body s3
          (idx + ph.attempts)
        ⟨t2.result, t2.state, ph.attempts + t2.attempts,
          ph.requests ++ t2.requests⟩
    else ⟨finishPost r, ph.state, ph.attempts, ph.requests⟩

/-! ## Exposed operations of the client -/

/-- Hexadecimal digit used by percent-encoding (uppercase, as produced by
encodeURIComponent). -/
def hexDigitChar (n : Nat) : Char :=
  if n < 10 then Char.ofNat (48 + n) else Char.ofNat (55 + n)

/-- Percent-encoding of one UTF-8 byte. -/
def percentEncodeByte (b : Nat) : String :=
  "%" ++ (hexDigitChar (b / 16)).toString ++ (hexDigitChar (b % 16)).toString

/-- Characters left untouched by encodeURIComponent. -/
def isUnreservedURIChar (ch : Char) : Bool :=
  ch.isAlphanum ||
  ch ∈ ['-', '_', '.', '!', '~', '*', Char.ofNat 39, '(', ')']

/-- Model of the platform encodeURIComponent: unreserved characters pass
through, every other character is percent-encoded byte by byte in UTF-8. -/
def encodeURIComponent (s : String) : String :=
  s.foldl
    (fun acc ch =>
      acc ++
        if isUnreservedURIChar ch then ch.toString
        else String.join ((ch.toString.toUTF8.toList).map
          (fun b => percentEncodeByte b.toNat)))
    ""

/-- Model of JSON.stringify on the flat string records the client posts
(wallet link and NFT verify payloads); string escaping is elided since the
claims never inspect it. -/
def jsonStringify (fields : List (String × String)) : String :=
  "\x7b" ++
    String.intercalate ","
      (fields.map (fun f => "\"" ++ f.1 ++ "\":\"" ++ f.2 ++ "\"")) ++
  "\x7d"

/-- URL of an SDK endpoint: baseUrl plus the fixed versioned prefix. -/
def sdkUrl (cfg : ClientConfig) (endpoint : String) : String :=
  cfg.baseUrl ++ "/api/v1/sdk" ++ endpoint

/-- The trace produced by a validation failure: a local plain Error, no
token activity, no HTTP attempt, no request envelope. -/
def validationFailure (msg : String) (s : TokenState) : ClientTrace :=
  ⟨Except.error (ClientError.plain msg), s, 0, []⟩

/-- Embedding of getMaps. -/
def getMaps (cfg : ClientConfig) (provider : Nat → Except String String)
    (http : Nat → HttpRequest → AttemptOutcome) (s : TokenState) :
    ClientTrace :=
  clientGet cfg provider http (sdkUrl cfg "/maps") s 0

/-- Embedding of getCourse with its courseId validation. -/
def getCourse (cfg : ClientConfig) (provider : Nat → Except String String)
    (http : Nat → HttpRequest → AttemptOutcome) (courseId : String)
    (s : TokenState) : ClientTrace :=
  if !truthyStr courseId then validationFailure "courseId is required" s
  else
    clientGet cfg provider http
      (sdkUrl cfg ("/courses/" ++ encodeURIComponent courseId)) s 0

/-- Embedding of startCourse. -/
def startCourse (cfg : ClientConfig) (provider : Nat → Except String String)
    (http : Nat → HttpRequest → AttemptOutcome) (courseId : String)
    (s : TokenState) : ClientTrace :=
  if !truthyStr courseId then validationFailure "courseId is required" s
  else
    clientPost cfg provider http
      (sdkUrl cfg ("/courses/" ++ encodeURIComponent courseId ++ "/start"))
      none s 0

/-- Embedding of completeStep; the optional request body is a flat record
serialized with JSON.stringify (an absent request posts no body). -/
def completeStep (cfg : ClientConfig) (provider : Nat → Except String String)
    (http : Nat → HttpRequest → AttemptOutcome) (courseId stepId : String)
    (request : Option (List (String × String))) (s : TokenState) :
    ClientTrace :=
  if !truthyStr courseId then validationFailure "courseId is required" s
  else if !truthyStr stepId then validationFailure "stepId is required" s
  else
    clientPost cfg provider http
      (sdkUrl cfg ("/courses/" ++ encodeURIComponent courseId ++ "/steps/" ++
        encodeURIComponent stepId ++ "/complete"))
      (request.map jsonStringify) s 0

/-- Embedding of getProgress. -/
def getProgress (cfg : ClientConfig) (provider : Nat → Except String String)
    (http : Nat → HttpRequest → AttemptOutcome) (s : TokenState) :
    ClientTrace :=
  clientGet cfg provider http (sdkUrl cfg "/progress") s 0

/-- Embedding of getCourseProgress: the one operation that converts a
NOT_FOUND VenalabsApiError from its get into a successful null result;
every other error is rethrown. -/
def getCourseProgress (cfg : ClientConfig)
    (provider : Nat → Except String String)
    (http : Nat → HttpRequest → AttemptOutcome) (courseId : String)
    (s : TokenState) : ClientTrace :=
  if !truthyStr courseId then validationFailure "courseId is required" s
  else
    let t := clientGet cfg provider http
      (sdkUrl cfg ("/progress/" ++ encodeURIComponent courseId)) s 0
    match t.result with
    | Except.error (ClientError.api e) =>
      if e.code = VenalabsErrorCode.NOT_FOUND then
        ⟨Except.ok none, t.state, t.attempts, t.requests⟩
      else t
    | _ => t

/-- Embedding of getWalletNonce. -/
def getWalletNonce (cfg : ClientConfig)
    (provider : Nat → Except String String)
    (http : Nat → HttpRequest → AttemptOutcome) (walletAddress : String)
    (s : TokenState) : ClientTrace :=
  if !truthyStr walletAddress then
    validationFailure "walletAddress is required" s
  else
    clientGet cfg provider http
      (sdkUrl cfg
        ("/wallet/nonce?walletAddress=" ++ encodeURIComponent walletAddress))
      s 0

/-- Embedding of linkStellarWallet. -/
def linkStellarWallet (cfg : ClientConfig)
    (provider : Nat → Except String String)
    (http : Nat → HttpRequest → AttemptOutcome)
    (walletAddress signature : String) (s : TokenState) : ClientTrace :=
  if !truthyStr walletAddress then
    validationFailure "walletAddress is required" s
  else if !truthyStr signature then
    validationFailure "signature is required" s
  else
    clientPost cfg provider http (sdkUrl cfg "/wallet/stellar/link")
      (some (jsonStringify
        [("walletAddress", walletAddress), ("signature", signature)]))
      s 0

/-- Embedding of getLinkedWallets. -/
def getLinkedWallets (cfg : ClientConfig)
    (provider : Nat → Except String String)
    (http : Nat → HttpRequest → AttemptOutcome) (s : TokenState) :
    ClientTrace :=
  clientGet cfg provider http (sdkUrl cfg "/wallet") s 0

/-- Embedding of verifyStep. -/
def verifyStep (cfg : ClientConfig) (provider : Nat → Except String String)
    (http : Nat → HttpRequest → AttemptOutcome) (courseId stepId : String)
    (s : TokenState) : ClientTrace :=
  if !truthyStr courseId then validationFailure "courseId is required" s
  else if !truthyStr stepId then validationFailure "stepId is required" s
  else
    clientPost cfg provider http
      (sdkUrl cfg ("/courses/" ++ encodeURIComponent courseId ++ "/steps/" ++
        encodeURIComponent stepId ++ "/verify"))
      none s 0

/-- Embedding of getNftVoucher. -/
def getNftVoucher (cfg : ClientConfig)
    (provider : Nat → Except String String)
    (http : Nat → HttpRequest → AttemptOutcome) (courseId stepId : String)
    (s : TokenState) : ClientTrace :=
  if !truthyStr courseId then validationFailure "courseId is required" s
  else if !truthyStr stepId then validationFailure "stepId is required" s
  else
    clientGet cfg provider http
      (sdkUrl cfg ("/courses/" ++ encodeURIComponent courseId ++ "/steps/" ++
        encodeURIComponent stepId ++ "/nft-voucher"))
      s 0

/-- Embedding of verifyNftMint. -/
def verifyNftMint (cfg : ClientConfig)
    (provider : Nat → Except String String)
    (http : Nat → HttpRequest → AttemptOutcome)
    (courseId stepId txHash : String) (s : TokenState) : ClientTrace :=
  if !truthyStr courseId then validationFailure "courseId is required" s
  else if !truthyStr stepId then validationFailure "stepId is required" s
  else if !truthyStr txHash then validationFailure "txHash is required" s
  else
    clientPost cfg provider http
      (sdkUrl cfg ("/courses/" ++ encodeURIComponent courseId ++ "/steps/" ++
        encodeURIComponent stepId ++ "/nft-verify"))
      (some (jsonStringify [("txHash", txHash)])) s 0

/-! ## Sample data used by concrete scenarios and witnesses -/

/-- A sample parsed success payload. -/
def sampleBody : JsonBody := ⟨none, none, none, "payload"⟩

/-- A sample client configuration. -/
def sampleCfg : ClientConfig := ⟨"valid-key", "https://api.test.com", 30000⟩

/-- A 200 response carrying the sample payload. -/
def okJsonResponse : Response := ⟨200, none, some sampleBody⟩

/-- A 401 body with the TOKEN_EXPIRED hint. -/
def expiredBody : JsonBody := ⟨some 401, some "TOKEN_EXPIRED", some "Token expired", ""⟩

/-- A 401 response carrying the TOKEN_EXPIRED hint. -/
def expired401 : Response := ⟨401, none, some expiredBody⟩

/-- A 404 response with a not-found body. -/
def notFound404 : Response := ⟨404, none, some ⟨some 404, some "NOT_FOUND", some "Course not found", ""⟩⟩

/-- A 204 response with an empty body. -/
def noContent204 : Response := ⟨204, some "0", none⟩

/-- A 500 response with a server-error body. -/
def serverError500 : Response :=
  ⟨500, none, some ⟨some 500, none, some "Server error", ""⟩⟩

/-- A 400 response with an empty body. -/
def badRequest400 : Response := ⟨400, none, none⟩

/-- A provider that always yields the same token. -/
def constProvider (t : String) : Nat → Except String String :=
  fun _ => Except.ok t

/-- A provider whose first invocation yields an expired token and whose
later invocations yield a fresh one. -/
def expiredThenFresh : Nat → Except String String :=
  fun n => if n = 0 then Except.ok "expired-token" else Except.ok "fresh-token"

/-- An HTTP world that answers every attempt with the same response. -/
def constHttp (r : Response) : Nat → HttpRequest → AttemptOutcome :=
  fun _ _ => AttemptOutcome.response r

/-- An HTTP world that answers 401 unless the request bears the fresh
token. -/
def http401ThenOk : Nat → HttpRequest → AttemptOutcome :=
  fun _ req =>
    if req.headers = stdHeaders "valid-key" "fresh-token" then
      AttemptOutcome.response okJsonResponse
    else AttemptOutcome.response expired401

/-! ## Transport-layer lemmas -/

/-- A retryable status is never a 2xx status. -/
theorem retryable_not_ok (r : Response) (h : isRetryableStatus r.status = true) :
    r.ok = false := by
  simp [isRetryableStatus] at h
  simp [Response.ok]
  omega

/-- A response that is ok or non-retryable is returned at once. -/
theorem fetchLoop_return_now (world : Nat → AttemptOutcome)
    (d t idx k : Nat) (r : Response)
    (hw : world idx = AttemptOutcome.response r)
    (hok : (r.ok || !isRetryableStatus r.status) = true) :
    fetchLoop world d t idx (k + 1) = ⟨Except.ok r, 1, []⟩ := by
  simp [fetchLoop, hw, hok]

/-- A non-retryable status is returned at once. -/
theorem fetchLoop_nonretryable (world : Nat → AttemptOutcome)
    (d t idx k : Nat) (r : Response)
    (hw : world idx = AttemptOutcome.response r)
    (hr : isRetryableStatus r.status = false) :
    fetchLoop world d t idx (k + 1) = ⟨Except.ok r, 1, []⟩ :=
  fetchLoop_return_now world d t idx k r hw (by simp [hr])

/-- A retryable non-ok response with attempts remaining consumes one
attempt, sleeps once, and continues with the next attempt. -/
theorem fetchLoop_response_step (world : Nat → AttemptOutcome)
    (d t idx rem : Nat) (r : Response)
    (hw : world idx = AttemptOutcome.response r)
    (hr : isRetryableStatus r.status = true) (hrem : 1 ≤ rem) :
    fetchLoop world d t idx (rem + 1) =
      ⟨(fetchLoop world d t (idx + 1) rem).result,
        (fetchLoop world d t (idx + 1) rem).attemptsMade + 1,
        d :: (fetchLoop world d t (idx + 1) rem).sleeps⟩ := by
  obtain ⟨k, rfl⟩ : ∃ k, rem = k + 1 := ⟨rem - 1, by omega⟩
  have hok := retryable_not_ok r hr
  simp [fetchLoop, hw, hok, hr]

/-- A timeout with attempts remaining consumes one attempt the same way. -/
theorem fetchLoop_abort_step (world : Nat → AttemptOutcome)
    (d t idx rem : Nat) (hw : world idx = AttemptOutcome.abortTimeout)
    (hrem : 1 ≤ rem) :
    fetchLoop world d t idx (rem + 1) =
      ⟨(fetchLoop world d t (idx + 1) rem).result,
        (fetchLoop world d t (idx + 1) rem).attemptsMade + 1,
        d :: (fetchLoop world d t (idx + 1) rem).sleeps⟩ := by
  obtain ⟨k, rfl⟩ : ∃ k, rem = k + 1 := ⟨rem - 1, by omega⟩
  simp [fetchLoop, hw]

/-- A network error with attempts remaining consumes one attempt the same
way. -/
theorem fetchLoop_network_step (world : Nat → AttemptOutcome)
    (d t idx rem : Nat) (m : String)
    (hw : world idx = AttemptOutcome.networkError m) (hrem : 1 ≤ rem) :
    fetchLoop world d t idx (rem + 1) =
      ⟨(fetchLoop world d t (idx + 1) rem).result,
        (fetchLoop world d t (idx + 1) rem).attemptsMade + 1,
        d :: (fetchLoop world d t (idx + 1) rem).sleeps⟩ := by
  obtain ⟨k, rfl⟩ : ∃ k, rem = k + 1 := ⟨rem - 1, by omega⟩
  simp [fetchLoop, hw]

/-- Prepending the fixed delay to a one-short replicate list completes the
replicate list. -/
theorem cons_replicate_pred (a d : Nat) (h : 1 ≤ a) :
    d :: List.replicate (a - 1) d = List.replicate a d := by
  obtain ⟨b, rfl⟩ : ∃ b, a = b + 1 := ⟨a - 1, by omega⟩
  simp [List.replicate_succ]

/-- With a single attempt, a response is always returned, a timeout throws
the timeout error, and a network error throws the network error. -/
theorem fetchLoop_one (world : Nat → AttemptOutcome) (d t idx : Nat) :
    fetchLoop world d t idx 1 =
      ⟨match world idx with
        | AttemptOutcome.response r => Except.ok r
        | AttemptOutcome.abortTimeout =>
          Except.error (ClientError.api (VenalabsApiError.fromTimeout t))
        | AttemptOutcome.networkError m =>
          Except.error (ClientError.api (VenalabsApiError.fromNetworkError m)),
        1, []⟩ := by
  cases hw : world idx with
  | response r =>
    by_cases hok : (r.ok || !isRetryableStatus r.status) = true
    · simp [fetchLoop, hw, hok]
    · simp [fetchLoop, hw, hok]
  | abortTimeout => simp [fetchLoop, hw]
  | networkError m => simp [fetchLoop, hw]

/-- The loop never issues more attempts than it is given. -/
theorem fetchLoop_attempts_le (world : Nat → AttemptOutcome) (d t : Nat) :
    ∀ rem idx, (fetchLoop world d t idx rem).attemptsMade ≤ rem := by
  intro rem
  induction rem with
  | zero => intro idx; simp [fetchLoop]
  | succ r ih =>
    intro idx
    cases hw : world idx with
    | response resp =>
      by_cases hok : (resp.ok || !isRetryableStatus resp.status) = true
      · simp [fetchLoop, hw, hok]
      · by_cases hz : r = 0
        · simp [fetchLoop, hw, hok, hz]
        · have := ih (idx + 1)
          simp [fetchLoop, hw, hok, hz]
          omega
    | abortTimeout =>
      by_cases hz : r = 0
      · simp [fetchLoop, hw, hz]
      · have := ih (idx + 1)
        simp [fetchLoop, hw, hz]
        omega
    | networkError m =>
      by_cases hz : r = 0
      · simp [fetchLoop, hw, hz]
      · have := ih (idx + 1)
        simp [fetchLoop, hw, hz]
        omega

/-- At least one attempt is always issued when the budget is positive. -/
theorem fetchLoop_attempts_pos (world : Nat → AttemptOutcome)
    (d t idx r : Nat) : 1 ≤ (fetchLoop world d t idx (r + 1)).attemptsMade := by
  cases hw : world idx with
  | response resp =>
    by_cases hok : (resp.ok || !isRetryableStatus resp.status) = true
    · simp [fetchLoop, hw, hok]
    · by_cases hz : r = 0
      · simp [fetchLoop, hw, hok, hz]
      · simp [fetchLoop, hw, hok, hz]
  | abortTimeout =>
    by_cases hz : r = 0
    · simp [fetchLoop, hw, hz]
    · simp [fetchLoop, hw, hz]
  | networkError m =>
    by_cases hz : r = 0
    · simp [fetchLoop, hw, hz]
    · simp [fetchLoop, hw, hz]

/-- Every inter-attempt wait is exactly the fixed retryDelay: the sleep
list is one fixed delay per attempt after the first. -/
theorem fetchLoop_sleeps (world : Nat → AttemptOutcome) (d t : Nat) :
    ∀ rem idx, (fetchLoop world d t idx rem).sleeps =
      List.replicate ((fetchLoop world d t idx rem).attemptsMade - 1) d := by
  intro rem
  induction rem with
  | zero => intro idx; simp [fetchLoop]
  | succ r ih =>
    intro idx
    cases hw : world idx with
    | response resp =>
      by_cases hok : (resp.ok || !isRetryableStatus resp.status) = true
      · rw [fetchLoop_return_now world d t idx r resp hw hok]
        rfl
      · have hretry : isRetryableStatus resp.status = true := by
          cases hob : isRetryableStatus resp.status with
          | true => rfl
          | false => rw [hob] at hok; simp at hok
        rcases r with _ | r'
        · simp [fetchLoop, hw, hok]
        · rw [fetchLoop_response_step world d t idx (r' + 1) resp hw hretry
            (by omega)]
          have hpos := fetchLoop_attempts_pos world d t (idx + 1) r'
          show d :: (fetchLoop world d t (idx + 1) (r' + 1)).sleeps =
            List.replicate
              ((fetchLoop world d t (idx + 1) (r' + 1)).attemptsMade + 1 - 1) d
          rw [ih (idx + 1), Nat.add_sub_cancel]
          exact cons_replicate_pred _ d hpos
    | abortTimeout =>
      rcases r with _ | r'
      · simp [fetchLoop, hw]
      · rw [fetchLoop_abort_step world d t idx (r' + 1) hw (by omega)]
        have hpos := fetchLoop_attempts_pos world d t (idx + 1) r'
        show d :: (fetchLoop world d t (idx + 1) (r' + 1)).sleeps =
          List.replicate
            ((fetchLoop world d t (idx + 1) (r' + 1)).attemptsMade + 1 - 1) d
        rw [ih (idx + 1), Nat.add_sub_cancel]
        exact cons_replicate_pred _ d hpos
    | networkError m =>
      rcases r with _ | r'
      · simp [fetchLoop, hw]
      · rw [fetchLoop_network_step world d t idx (r' + 1) m hw (by omega)]
        have hpos := fetchLoop_attempts_pos world d t (idx + 1) r'
        show d :: (fetchLoop world d t (idx + 1) (r' + 1)).sleeps =
          List.replicate
            ((fetchLoop world d t (idx + 1) (r' + 1)).attemptsMade + 1 - 1) d
        rw [ih (idx + 1), Nat.add_sub_cancel]
        exact cons_replicate_pred _ d hpos

/-- When the first k attempts all cause a retry, the loop reaches the last
attempt, having issued k + 1 attempts and k fixed sleeps; the outcome is
that of the last attempt alone. -/
theorem fetchLoop_all_retry (world : Nat → AttemptOutcome) (d t : Nat) :
    ∀ k idx, (∀ j, j < k → retryCausing (world (idx + j)) = true) →
      fetchLoop world d t idx (k + 1) =
        ⟨(fetchLoop world d t (idx + k) 1).result, k + 1,
          List.replicate k d⟩ := by
  intro k
  induction k with
  | zero =>
    intro idx _
    simp [fetchLoop_one]
  | succ k ih =>
    intro idx h
    have h0 : retryCausing (world idx) = true := by
      have := h 0 (Nat.succ_pos k)
      simpa using this
    have hrest : ∀ j, j < k → retryCausing (world (idx + 1 + j)) = true := by
      intro j hj
      have hh := h (j + 1) (by omega)
      have harith : idx + (j + 1) = idx + 1 + j := by omega
      rwa [harith] at hh
    have hstep := ih (idx + 1) hrest
    have harith2 : idx + 1 + k = idx + (k + 1) := by omega
    rw [harith2] at hstep
    cases hw : world idx with
    | response resp =>
      have hretry : isRetryableStatus resp.status = true := by
        rw [hw] at h0
        cases hob : isRetryableStatus resp.status with
        | true => rfl
        | false => simp [retryCausing, hob] at h0
      rw [fetchLoop_response_step world d t idx (k + 1) resp hw hretry
        (by omega), hstep]
      simp [List.replicate_succ]
    | abortTimeout =>
      rw [fetchLoop_abort_step world d t idx (k + 1) hw (by omega), hstep]
      simp [List.replicate_succ]
    | networkError m =>
      rw [fetchLoop_network_step world d t idx (k + 1) m hw (by omega), hstep]
      simp [List.replicate_succ]

/-! ## Claim theorems: error taxonomy -/

/-- Claim C7: isAuthError returns true exactly for the kinds
INVALID_API_KEY, INVALID_TOKEN and TOKEN_EXPIRED, and isRetryable returns
true exactly for NETWORK_ERROR, TIMEOUT, SERVER_ERROR and RATE_LIMITED;
on every other kind of the closed nine-kind enumeration each predicate
returns false. -/
theorem C7_error_predicates :
    ∀ e : VenalabsApiError,
      (e.isAuthError = true ↔
        (e.code = VenalabsErrorCode.INVALID_API_KEY ∨
          e.code = VenalabsErrorCode.INVALID_TOKEN ∨
          e.code = VenalabsErrorCode.TOKEN_EXPIRED)) ∧
      (e.isRetryable = true ↔
        (e.code = VenalabsErrorCode.NETWORK_ERROR ∨
          e.code = VenalabsErrorCode.TIMEOUT ∨
          e.code = VenalabsErrorCode.SERVER_ERROR ∨
          e.code = VenalabsErrorCode.RATE_LIMITED)) := by
  intro e
  obtain ⟨c, st, msg⟩ := e
  cases c <;>
    simp [VenalabsApiError.isAuthError, VenalabsApiError.isRetryable]

/-- Claim C3 counterexample: a body whose message field is present but
empty.  fromResponse substitutes the default message instead of carrying
the body's message, so the record does not carry the body's message even
though one is present. -/
theorem C3_counterexample :
    (⟨none, none, some "", ""⟩ : JsonBody).message = some "" ∧
      (VenalabsApiError.fromResponse 404
          (some ⟨none, none, some "", ""⟩)).message = "Resource not found" := by
  constructor
  · rfl
  · rfl

/-- Claim C3 as amended: fromResponse maps status (plus the body type
hint) to a kind exactly per the table, the record carries the given
status, and it carries the body's message when one is present and
non-empty (an empty message falls back to the per-kind default). -/
theorem C3_fromResponse_mapping :
    ∀ (status : Nat) (body : Option JsonBody),
      (VenalabsApiError.fromResponse status body).status = status ∧
      (status = 401 →
        (VenalabsApiError.fromResponse status body).code =
          (if body.bind JsonBody.typ = some "TOKEN_EXPIRED" then
            VenalabsErrorCode.TOKEN_EXPIRED
          else VenalabsErrorCode.INVALID_TOKEN)) ∧
      (status = 403 →
        (VenalabsApiError.fromResponse status body).code =
          VenalabsErrorCode.INVALID_API_KEY) ∧
      (status = 404 →
        (VenalabsApiError.fromResponse status body).code =
          VenalabsErrorCode.NOT_FOUND) ∧
      (status = 429 →
        (VenalabsApiError.fromResponse status body).code =
          VenalabsErrorCode.RATE_LIMITED) ∧
      (500 ≤ status →
        (VenalabsApiError.fromResponse status body).code =
          VenalabsErrorCode.SERVER_ERROR) ∧
      (status ≠ 401 → status ≠ 403 → status ≠ 404 → status ≠ 429 →
        status < 500 →
        (VenalabsApiError.fromResponse status body).code =
          VenalabsErrorCode.UNKNOWN) ∧
      (∀ m, body.bind JsonBody.message = some m → m ≠ "" →
        (VenalabsApiError.fromResponse status body).message = m) := by
  intro status body
  refine ⟨?_, ?_, ?_, ?_, ?_, ?_, ?_, ?_⟩
  · unfold VenalabsApiError.fromResponse
    split_ifs <;> rfl
  · intro h; subst h; simp [VenalabsApiError.fromResponse]
  · intro h; subst h; simp [VenalabsApiError.fromResponse]
  · intro h; subst h; simp [VenalabsApiError.fromResponse]
  · intro h; subst h; simp [VenalabsApiError.fromResponse]
  · intro h
    unfold VenalabsApiError.fromResponse
    split_ifs with h1 h2 h3 h4 <;> first | rfl | (exfalso; omega)
  · intro h1 h2 h3 h4 h5
    unfold VenalabsApiError.fromResponse
    split_ifs with g1 g2 g3 <;> first | rfl | (exfalso; omega)
  · intro m hm hne
    unfold VenalabsApiError.fromResponse
    split_ifs <;> simp [hm, jsOr, hne]

/-- Witness for the amended C3 statement at concrete inputs. -/
theorem C3_fromResponse_mapping_witness :
    (VenalabsApiError.fromResponse 401 (some expiredBody)).code =
      VenalabsErrorCode.TOKEN_EXPIRED ∧
    (VenalabsApiError.fromResponse 503 none).code =
      VenalabsErrorCode.SERVER_ERROR ∧
    (VenalabsApiError.fromResponse 418 none).code =
      VenalabsErrorCode.UNKNOWN ∧
    (VenalabsApiError.fromResponse 404
      (some ⟨none, none, some "Course not found", ""⟩)).message =
        "Course not found" := by
  refine ⟨?_, ?_, ?_, ?_⟩
  · have h := (C3_fromResponse_mapping 401 (some expiredBody)).2.1 rfl
    rw [h]; rfl
  · exact (C3_fromResponse_mapping 503 none).2.2.2.2.2.1 (by omega)
  · exact (C3_fromResponse_mapping 418 none).2.2.2.2.2.2.1
      (by omega) (by omega) (by omega) (by omega) (by omega)
  · exact (C3_fromResponse_mapping 404
      (some ⟨none, none, some "Course not found", ""⟩)).2.2.2.2.2.2.2
      "Course not found" rfl (by decide)

/-! ## Claim theorems: transport primitive -/

/-- Claim C4: a response is retried exactly when its status is ≥ 500 or
429 and attempts remain — a non-retryable status is returned at once with
one attempt and no sleep, while a retryable response, a timeout and a
network error each consume one attempt and sleep once before the next
attempt; every inter-attempt wait equals the fixed retryDelay, the
attempt count never exceeds retries + 1 and reaches exactly retries + 1
when every attempt fails, and the defaults are retries = 1 and
retryDelay = 2000 (timeout 30000). -/
theorem C4_transport_retry_policy :
    (∀ world (opts : FetchWithRetryOptions) (idx : Nat) (r : Response),
      world idx = AttemptOutcome.response r →
      isRetryableStatus r.status = false →
      fetchWithRetry world opts idx = ⟨Except.ok r, 1, []⟩) ∧
    (∀ world (d t idx rem : Nat) (r : Response),
      world idx = AttemptOutcome.response r →
      isRetryableStatus r.status = true → 1 ≤ rem →
      fetchLoop world d t idx (rem + 1) =
        ⟨(fetchLoop world d t (idx + 1) rem).result,
          (fetchLoop world d t (idx + 1) rem).attemptsMade + 1,
          d :: (fetchLoop world d t (idx + 1) rem).sleeps⟩) ∧
    (∀ world (d t idx rem : Nat),
      world idx = AttemptOutcome.abortTimeout → 1 ≤ rem →
      fetchLoop world d t idx (rem + 1) =
        ⟨(fetchLoop world d t (idx + 1) rem).result,
          (fetchLoop world d t (idx + 1) rem).attemptsMade + 1,
          d :: (fetchLoop world d t (idx + 1) rem).sleeps⟩) ∧
    (∀ world (d t idx rem : Nat) (m : String),
      world idx = AttemptOutcome.networkError m → 1 ≤ rem →
      fetchLoop world d t idx (rem + 1) =
        ⟨(fetchLoop world d t (idx + 1) rem).result,
          (fetchLoop world d t (idx + 1) rem).attemptsMade + 1,
          d :: (fetchLoop world d t (idx + 1) rem).sleeps⟩) ∧
    (∀ world (opts : FetchWithRetryOptions) (idx : Nat),
      (fetchWithRetry world opts idx).sleeps =
        List.replicate ((fetchWithRetry world opts idx).attemptsMade - 1)
          (resolveOptions opts).retryDelay) ∧
    (∀ world (opts : FetchWithRetryOptions) (idx : Nat),
      (fetchWithRetry world opts idx).attemptsMade ≤
        (resolveOptions opts).retries + 1) ∧
    (∀ world (opts : FetchWithRetryOptions) (idx : Nat),
      (∀ j, retryCausing (world j) = true) →
      (fetchWithRetry world opts idx).attemptsMade =
        (resolveOptions opts).retries + 1) ∧
    resolveOptions ⟨none, none, none⟩ = ⟨1, 2000, 30000⟩ := by
  refine ⟨?_, ?_, ?_, ?_, ?_, ?_, ?_, rfl⟩
  · intro world opts idx r hw hr
    exact fetchLoop_nonretryable world (resolveOptions opts).retryDelay
      (resolveOptions opts).timeout idx (resolveOptions opts).retries r hw hr
  · intro world d t idx rem r hw hr hrem
    exact fetchLoop_response_step world d t idx rem r hw hr hrem
  · intro world d t idx rem hw hrem
    exact fetchLoop_abort_step world d t idx rem hw hrem
  · intro world d t idx rem m hw hrem
    exact fetchLoop_network_step world d t idx rem m hw hrem
  · intro world opts idx
    exact fetchLoop_sleeps world (resolveOptions opts).retryDelay
      (resolveOptions opts).timeout ((resolveOptions opts).retries + 1) idx
  · intro world opts idx
    exact fetchLoop_attempts_le world (resolveOptions opts).retryDelay
      (resolveOptions opts).timeout ((resolveOptions opts).retries + 1) idx
  · intro world opts idx h
    have hall : ∀ j, j < (resolveOptions opts).retries →
        retryCausing (world (idx + j)) = true := fun j _ => h (idx + j)
    have := fetchLoop_all_retry world (resolveOptions opts).retryDelay
      (resolveOptions opts).timeout (resolveOptions opts).retries idx hall
    unfold fetchWithRetry
    rw [this]

/-- Witness for C4 at concrete inputs: a 404 is returned at once with one
attempt; a 500 and a timeout each consume an attempt and sleep the fixed
delay; persistent network failure uses exactly retries + 1 = 2 attempts
under the defaults. -/
theorem C4_transport_retry_policy_witness :
    fetchWithRetry (fun _ => AttemptOutcome.response badRequest400)
        ⟨none, none, none⟩ 0 = ⟨Except.ok badRequest400, 1, []⟩ ∧
    fetchLoop (fun _ => AttemptOutcome.response serverError500) 2000 30000 0
        (1 + 1) =
      ⟨(fetchLoop (fun _ => AttemptOutcome.response serverError500)
          2000 30000 1 1).result,
        (fetchLoop (fun _ => AttemptOutcome.response serverError500)
          2000 30000 1 1).attemptsMade + 1,
        2000 :: (fetchLoop (fun _ => AttemptOutcome.response serverError500)
          2000 30000 1 1).sleeps⟩ ∧
    fetchLoop (fun _ => AttemptOutcome.abortTimeout) 2000 30000 0 (1 + 1) =
      ⟨(fetchLoop (fun _ => AttemptOutcome.abortTimeout)
          2000 30000 1 1).result,
        (fetchLoop (fun _ => AttemptOutcome.abortTimeout)
          2000 30000 1 1).attemptsMade + 1,
        2000 :: (fetchLoop (fun _ => AttemptOutcome.abortTimeout)
          2000 30000 1 1).sleeps⟩ ∧
    fetchLoop (fun _ => AttemptOutcome.networkError "down") 2000 30000 0
        (1 + 1) =
      ⟨(fetchLoop (fun _ => AttemptOutcome.networkError "down")
          2000 30000 1 1).result,
        (fetchLoop (fun _ => AttemptOutcome.networkError "down")
          2000 30000 1 1).attemptsMade + 1,
        2000 :: (fetchLoop (fun _ => AttemptOutcome.networkError "down")
          2000 30000 1 1).sleeps⟩ ∧
    (fetchWithRetry (fun _ => AttemptOutcome.networkError "down")
        ⟨none, none, none⟩ 0).attemptsMade = 2 := by
  refine ⟨?_, ?_, ?_, ?_, ?_⟩
  · exact C4_transport_retry_policy.1 _ ⟨none, none, none⟩ 0 badRequest400
      rfl (by decide)
  · exact C4_transport_retry_policy.2.1 _ 2000 30000 0 1 serverError500
      rfl (by decide) (by decide)
  · exact C4_transport_retry_policy.2.2.1 _ 2000 30000 0 1 rfl (by decide)
  · exact C4_transport_retry_policy.2.2.2.1 _ 2000 30000 0 1 "down"
      rfl (by decide)
  · exact C4_transport_retry_policy.2.2.2.2.2.2.1 _ ⟨none, none, none⟩ 0
      (fun _ => rfl)

/-- Claim C5: once the attempt budget is exhausted, a final HTTP response
(retryable or not) is returned rather than thrown, a final timeout throws
the TIMEOUT error, a final network failure throws the NETWORK_ERROR error,
and both thrown errors carry HTTP status 0. -/
theorem C5_exhaustion_behavior :
    ∀ world (opts : FetchWithRetryOptions) (idx : Nat),
      (∀ j, j < (resolveOptions opts).retries →
        retryCausing (world (idx + j)) = true) →
      (∀ r, world (idx + (resolveOptions opts).retries) =
          AttemptOutcome.response r →
        fetchWithRetry world opts idx =
          ⟨Except.ok r, (resolveOptions opts).retries + 1,
            List.replicate (resolveOptions opts).retries
              (resolveOptions opts).retryDelay⟩) ∧
      ((world (idx + (resolveOptions opts).retries) =
          AttemptOutcome.abortTimeout →
        (fetchWithRetry world opts idx).result =
          Except.error (ClientError.api
            (VenalabsApiError.fromTimeout (resolveOptions opts).timeout))) ∧
        (VenalabsApiError.fromTimeout (resolveOptions opts).timeout).status =
          0) ∧
      (∀ m, world (idx + (resolveOptions opts).retries) =
          AttemptOutcome.networkError m →
        (fetchWithRetry world opts idx).result =
          Except.error (ClientError.api
            (VenalabsApiError.fromNetworkError m)) ∧
        (VenalabsApiError.fromNetworkError m).status = 0) := by
  intro world opts idx h
  have hall := fetchLoop_all_retry world (resolveOptions opts).retryDelay
    (resolveOptions opts).timeout (resolveOptions opts).retries idx h
  have hone := fetchLoop_one world (resolveOptions opts).retryDelay
    (resolveOptions opts).timeout (idx + (resolveOptions opts).retries)
  refine ⟨?_, ⟨?_, rfl⟩, ?_⟩
  · intro r hw
    unfold fetchWithRetry
    rw [hall, hone, hw]
  · intro hw
    unfold fetchWithRetry
    rw [hall, hone, hw]
  · intro m hw
    constructor
    · unfold fetchWithRetry
      rw [hall, hone, hw]
    · rfl

/-- Witness for C5 with the default single retry: a first 500 followed by
a retryable 500 is returned, a first 500 followed by a timeout throws the
TIMEOUT error with status 0. -/
theorem C5_exhaustion_behavior_witness :
    fetchWithRetry (fun _ => AttemptOutcome.response serverError500)
        ⟨none, none, none⟩ 0 =
      ⟨Except.ok serverError500, 2, [2000]⟩ ∧
    (fetchWithRetry
        (fun i => if i = 0 then AttemptOutcome.response serverError500
          else AttemptOutcome.abortTimeout)
        ⟨none, none, none⟩ 0).result =
      Except.error (ClientError.api (VenalabsApiError.fromTimeout 30000)) ∧
    (VenalabsApiError.fromTimeout 30000).status = 0 := by
  refine ⟨?_, ?_, ?_⟩
  · have h := (C5_exhaustion_behavior
      (fun _ => AttemptOutcome.response serverError500) ⟨none, none, none⟩ 0
      (fun _ _ => rfl)).1 serverError500 rfl
    exact h
  · exact ((C5_exhaustion_behavior
      (fun i => if i = 0 then AttemptOutcome.response serverError500
        else AttemptOutcome.abortTimeout)
      ⟨none, none, none⟩ 0
      (fun j hj => by
        have hj0 : j = 0 := by
          simp [resolveOptions, DEFAULT_OPTIONS] at hj
          omega
        subst hj0
        rfl)).2.1).1 rfl
  · rfl

/-! ## Token coordinator lemmas -/

/-- While a refresh is pending and nothing is cached, every further
getToken entry joins the same pending promise and leaves the state
unchanged. -/
theorem runGetTokens_pending (k : Nat) :
    ∀ n (s : TokenState), s.cachedToken = none → s.pendingId = some k →
      runGetTokens s n = (s, List.replicate n (GetTokenWait.awaitP k)) := by
  intro n
  induction n with
  | zero => intro s h1 h2; simp [runGetTokens]
  | succ n ih =>
    intro s h1 h2
    have henter : getTokenEnter s = (s, GetTokenWait.awaitP k) := by
      simp [getTokenEnter, refreshTokenEnter, h1, h2]
    simp [runGetTokens, henter, ih s h1 h2, List.replicate_succ]

/-- A getToken on an empty-and-idle coordinator invokes the provider once
and caches its token. -/
theorem getToken_uncached (provider : Nat → Except String String)
    (s : TokenState) (t : String) (h1 : s.cachedToken = none)
    (h2 : s.pendingId = none) (hp : provider s.providerCalls = Except.ok t) :
    getToken provider s =
      (⟨some t, none, s.nextId + 1, s.providerCalls + 1⟩, Except.ok t) := by
  simp [getToken, getTokenEnter, refreshTokenEnter, resolveToken, h1, h2, hp]

/-- A getToken on a truthy cached credential returns it with no provider
activity. -/
theorem getToken_cached (provider : Nat → Except String String)
    (s : TokenState) (t : String) (h1 : s.cachedToken = some t)
    (ht : t ≠ "") : getToken provider s = (s, Except.ok t) := by
  simp [getToken, getTokenEnter, truthyStr, h1, ht]

/-- A refreshToken on an idle coordinator invokes the provider once and
caches its token. -/
theorem refreshToken_idle (provider : Nat → Except String String)
    (s : TokenState) (t : String) (h2 : s.pendingId = none)
    (hp : provider s.providerCalls = Except.ok t) :
    refreshToken provider s =
      (⟨some t, none, s.nextId + 1, s.providerCalls + 1⟩, Except.ok t) := by
  simp [refreshToken, refreshTokenEnter, resolveToken, h2, hp]

/-- getHeaders on an empty-and-idle coordinator: one provider call, and
the standard headers built from the fetched token. -/
theorem getHeaders_uncached (apiKey : String)
    (provider : Nat → Except String String) (s : TokenState) (t : String)
    (h1 : s.cachedToken = none) (h2 : s.pendingId = none)
    (hp : provider s.providerCalls = Except.ok t) :
    getHeaders apiKey provider s =
      (⟨some t, none, s.nextId + 1, s.providerCalls + 1⟩,
        Except.ok (stdHeaders apiKey t)) := by
  simp [getHeaders, getToken_uncached provider s t h1 h2 hp]

/-- getHeaders on a truthy cached credential: no provider activity. -/
theorem getHeaders_cached (apiKey : String)
    (provider : Nat → Except String String) (s : TokenState) (t : String)
    (h1 : s.cachedToken = some t) (ht : t ≠ "") :
    getHeaders apiKey provider s = (s, Except.ok (stdHeaders apiKey t)) := by
  simp [getHeaders, getToken_cached provider s t h1 ht]

/-! ## Claim theorems: token coordinator -/

/-- Claim C2: for every number n ≥ 1 of concurrent getToken calls on one
instance while nothing is cached and no refresh is in flight, the provider
is invoked exactly once and every caller awaits that single invocation's
promise; calls arriving while a refresh is already in flight add no
provider invocation and also all await the in-flight promise; and a
refresh entry while a promise is outstanding never starts a second
provider call, so two provider calls are never outstanding at once. -/
theorem C2_single_flight :
    (∀ (n : Nat) (s : TokenState), 1 ≤ n → s.cachedToken = none →
      s.pendingId = none →
      (runGetTokens s n).1.providerCalls = s.providerCalls + 1 ∧
      (runGetTokens s n).2 =
        List.replicate n (GetTokenWait.awaitP s.nextId)) ∧
    (∀ (n : Nat) (s : TokenState) (k : Nat), s.cachedToken = none →
      s.pendingId = some k →
      (runGetTokens s n).1.providerCalls = s.providerCalls ∧
      (runGetTokens s n).2 = List.replicate n (GetTokenWait.awaitP k)) ∧
    (∀ s : TokenState, s.pendingId.isSome = true →
      (refreshTokenEnter s).1.providerCalls = s.providerCalls) := by
  refine ⟨?_, ?_, ?_⟩
  · intro n s hn h1 h2
    obtain ⟨m, rfl⟩ : ∃ m, n = m + 1 := ⟨n - 1, by omega⟩
    have henter : getTokenEnter s =
        (⟨none, some s.nextId, s.nextId + 1, s.providerCalls + 1⟩,
          GetTokenWait.awaitP s.nextId) := by
      simp [getTokenEnter, refreshTokenEnter, h1, h2]
    have hrest := runGetTokens_pending s.nextId m
      ⟨none, some s.nextId, s.nextId + 1, s.providerCalls + 1⟩ rfl rfl
    constructor
    · simp [runGetTokens, henter, hrest]
    · simp [runGetTokens, henter, hrest, List.replicate_succ]
  · intro n s k h1 h2
    have h := runGetTokens_pending k n s h1 h2
    constructor
    · rw [h]
    · rw [h]
  · intro s h
    cases hp : s.pendingId with
    | none => rw [hp] at h; simp at h
    | some k => simp [refreshTokenEnter, hp]

/-- Witness for C2: three concurrent getToken calls on a fresh client
yield one provider invocation and three waiters on promise 0; two calls
joining an in-flight refresh add no invocation. -/
theorem C2_single_flight_witness :
    (runGetTokens initialTokenState 3).1.providerCalls = 1 ∧
    (runGetTokens initialTokenState 3).2 =
      List.replicate 3 (GetTokenWait.awaitP 0) ∧
    (runGetTokens ⟨none, some 7, 8, 1⟩ 2).1.providerCalls = 1 ∧
    (runGetTokens ⟨none, some 7, 8, 1⟩ 2).2 =
      List.replicate 2 (GetTokenWait.awaitP 7) := by
  refine ⟨?_, ?_, ?_, ?_⟩
  · exact (C2_single_flight.1 3 initialTokenState (by omega) rfl rfl).1
  · exact (C2_single_flight.1 3 initialTokenState (by omega) rfl rfl).2
  · exact (C2_single_flight.2.1 2 ⟨none, some 7, 8, 1⟩ 7 rfl rfl).1
  · exact (C2_single_flight.2.1 2 ⟨none, some 7, 8, 1⟩ 7 rfl rfl).2

/-- Claim C10: a provider that resolves with the empty string has its
token stored but never treated as cached — the truthiness check sends
every subsequent getToken back to the provider, so the provider is
invoked once per request rather than once per cache lifetime, while each
request still proceeds and carries the header Authorization: Bearer with
the empty token. -/
theorem C10_empty_token_not_cached :
    getToken (constProvider "") initialTokenState =
      (⟨some "", none, 1, 1⟩, Except.ok "") ∧
    getToken (constProvider "") ⟨some "", none, 1, 1⟩ =
      (⟨some "", none, 2, 2⟩, Except.ok "") ∧
    getHeaders "valid-key" (constProvider "") initialTokenState =
      (⟨some "", none, 1, 1⟩,
        Except.ok [("Content-Type", "application/json"),
          ("X-Api-Key", "valid-key"), ("Authorization", "Bearer ")]) ∧
    (clientGet sampleCfg (constProvider "") (constHttp okJsonResponse)
        (sdkUrl sampleCfg "/maps") initialTokenState 0).state.providerCalls
      = 1 ∧
    (clientGet sampleCfg (constProvider "") (constHttp okJsonResponse)
        (sdkUrl sampleCfg "/maps") initialTokenState 0).result =
      Except.ok (some sampleBody) ∧
    (clientGet sampleCfg (constProvider "") (constHttp okJsonResponse)
        (sdkUrl sampleCfg "/maps")
        (clientGet sampleCfg (constProvider "") (constHttp okJsonResponse)
          (sdkUrl sampleCfg "/maps") initialTokenState 0).state
        0).state.providerCalls = 2 ∧
    (clientGet sampleCfg (constProvider "") (constHttp okJsonResponse)
        (sdkUrl sampleCfg "/maps") initialTokenState 0).requests =
      [⟨"GET", sdkUrl sampleCfg "/maps", stdHeaders "valid-key" "", none⟩] ∧
    stdHeaders "valid-key" "" =
      [("Content-Type", "application/json"), ("X-Api-Key", "valid-key"),
        ("Authorization", "Bearer ")] := by
  refine ⟨rfl, rfl, rfl, rfl, rfl, rfl, rfl, rfl⟩

/-! ## Client-layer lemmas -/

/-- A 2xx response never has status 401. -/
theorem ok_not_401 (r : Response) (h : r.ok = true) :
    (r.status == 401) = false := by
  simp [Response.ok] at h
  simp
  omega

/-- A 2xx response never has a retryable status. -/
theorem ok_not_retryable (r : Response) (h : r.ok = true) :
    isRetryableStatus r.status = false := by
  simp [Response.ok] at h
  simp [isRetryableStatus]
  omega

/-- Under the client's retry options, a first-attempt response with a
non-retryable status is the whole transport trace. -/
theorem fetchWithRetry_client_nonretryable (w : Nat → AttemptOutcome)
    (cfg : ClientConfig) (idx : Nat) (r : Response)
    (hw : w idx = AttemptOutcome.response r)
    (hr : isRetryableStatus r.status = false) :
    fetchWithRetry w (getRetryOptions cfg) idx = ⟨Except.ok r, 1, []⟩ :=
  fetchLoop_nonretryable w 2000 cfg.timeout idx 1 r hw hr

/-- The header-and-fetch phase when headers resolve and the first attempt
answers with a non-retryable response. -/
theorem clientFetch_response (method : String) (cfg : ClientConfig)
    (provider : Nat → Except String String)
    (http : Nat → HttpRequest → AttemptOutcome) (url : String)
    (body : Option String) (s : TokenState) (idx : Nat) (s1 : TokenState)
    (hs : List (String × String)) (r : Response)
    (hh : getHeaders cfg.apiKey provider s = (s1, Except.ok hs))
    (hw : http idx ⟨method, url, hs, body⟩ = AttemptOutcome.response r)
    (hr : isRetryableStatus r.status = false) :
    clientFetch method cfg provider http url body s idx =
      ⟨s1, 1, [⟨method, url, hs, body⟩], Except.ok r⟩ := by
  have hfr := fetchWithRetry_client_nonretryable
    (fun i => http i ⟨method, url, hs, body⟩) cfg idx r hw hr
  simp [clientFetch, hh, hfr]

/-- The get helper in retry mode on a fetched response applies the get
epilogue. -/
theorem clientGetRetry_response (cfg : ClientConfig)
    (provider : Nat → Except String String)
    (http : Nat → HttpRequest → AttemptOutcome) (url : String)
    (s : TokenState) (idx : Nat) (s1 : TokenState) (n : Nat)
    (reqs : List HttpRequest) (r : Response)
    (hf : clientFetch "GET" cfg provider http url none s idx =
      ⟨s1, n, reqs, Except.ok r⟩) :
    clientGetRetry cfg provider http url s idx =
      ⟨finishGet r, s1, n, reqs⟩ := by
  simp [clientGetRetry, hf]

/-- The get helper on a fetched non-401 response applies the get
epilogue. -/
theorem clientGet_no401 (cfg : ClientConfig)
    (provider : Nat → Except String String)
    (http : Nat → HttpRequest → AttemptOutcome) (url : String)
    (s : TokenState) (idx : Nat) (s1 : TokenState) (n : Nat)
    (reqs : List HttpRequest) (r : Response)
    (hf : clientFetch "GET" cfg provider http url none s idx =
      ⟨s1, n, reqs, Except.ok r⟩)
    (h401 : (r.status == 401) = false) :
    clientGet cfg provider http url s idx = ⟨finishGet r, s1, n, reqs⟩ := by
  simp [clientGet, hf, h401]

/-- The get helper on a fetched 401 response: clear, refresh once, and
re-issue once in retry mode, accumulating attempts and envelopes. -/
theorem clientGet_401_refresh (cfg : ClientConfig)
    (provider : Nat → Except String String)
    (http : Nat → HttpRequest → AttemptOutcome) (url : String)
    (s : TokenState) (idx : Nat) (s1 : TokenState) (n : Nat)
    (reqs : List HttpRequest) (r : Response) (s3 : TokenState) (t' : String)
    (hf : clientFetch "GET" cfg provider http url none s idx =
      ⟨s1, n, reqs, Except.ok r⟩)
    (h401 : (r.status == 401) = true)
    (href : refreshToken provider (clearToken s1) = (s3, Except.ok t')) :
    clientGet cfg provider http url s idx =
      ⟨(clientGetRetry cfg provider http url s3 (idx + n)).result,
        (clientGetRetry cfg provider http url s3 (idx + n)).state,
        n + (clientGetRetry cfg provider http url s3 (idx + n)).attempts,
        reqs ++ (clientGetRetry cfg provider http url s3 (idx + n)).requests⟩ := by
  simp [clientGet, hf, h401, href]

/-- The post helper in retry mode on a fetched response applies the post
epilogue. -/
theorem clientPostRetry_response (cfg : ClientConfig)
    (provider : Nat → Except String String)
    (http : Nat → HttpRequest → AttemptOutcome) (url : String)
    (body : Option String) (s : TokenState) (idx : Nat) (s1 : TokenState)
    (n : Nat) (reqs : List HttpRequest) (r : Response)
    (hf : clientFetch "POST" cfg provider http url body s idx =
      ⟨s1, n, reqs, Except.ok r⟩) :
    clientPostRetry cfg provider http url body s idx =
      ⟨finishPost r, s1, n, reqs⟩ := by
  simp [clientPostRetry, hf]

/-- The post helper on a fetched non-401 response applies the post
epilogue. -/
theorem clientPost_no401 (cfg : ClientConfig)
    (provider : Nat → Except String String)
    (http : Nat → HttpRequest → AttemptOutcome) (url : String)
    (body : Option String) (s : TokenState) (idx : Nat) (s1 : TokenState)
    (n : Nat) (reqs : List HttpRequest) (r : Response)
    (hf : clientFetch "POST" cfg provider http url body s idx =
      ⟨s1, n, reqs, Except.ok r⟩)
    (h401 : (r.status == 401) = false) :
    clientPost cfg provider http url body s idx =
      ⟨finishPost r, s1, n, reqs⟩ := by
  simp [clientPost, hf, h401]

/-- The post helper on a fetched 401 response: clear, refresh once, and
re-issue once in retry mode. -/
theorem clientPost_401_refresh (cfg : ClientConfig)
    (provider : Nat → Except String String)
    (http : Nat → HttpRequest → AttemptOutcome) (url : String)
    (body : Option String) (s : TokenState) (idx : Nat) (s1 : TokenState)
    (n : Nat) (reqs : List HttpRequest) (r : Response) (s3 : TokenState)
    (t' : String)
    (hf : clientFetch "POST" cfg provider http url body s idx =
      ⟨s1, n, reqs, Except.ok r⟩)
    (h401 : (r.status == 401) = true)
    (href : refreshToken provider (clearToken s1) = (s3, Except.ok t')) :
    clientPost cfg provider http url body s idx =
      ⟨(clientPostRetry cfg provider http url body s3 (idx + n)).result,
        (clientPostRetry cfg provider http url body s3 (idx + n)).state,
        n + (clientPostRetry cfg provider http url body s3 (idx + n)).attempts,
        reqs ++
          (clientPostRetry cfg provider http url body s3 (idx + n)).requests⟩ := by
  simp [clientPost, hf, h401, href]

/-- A 401 classification is always an auth-kind error, whatever the body
hint. -/
theorem fromResponse_401_isAuthError (b : Option JsonBody) :
    (VenalabsApiError.fromResponse 401 b).isAuthError = true := by
  by_cases hb : b.bind JsonBody.typ = some "TOKEN_EXPIRED" <;>
    simp [VenalabsApiError.fromResponse, VenalabsApiError.isAuthError, hb]

/-! ## Claim theorems: 401 refresh-and-retry protocol -/

/-- Claim C1: for both the get and post helpers, a first-attempt 401
invalidates the cached credential, forces exactly one provider refresh,
and re-issues the same request exactly once with the fresh credential
(total provider invocations 2, total HTTP attempts 2, identical envelopes
except for the Authorization header); if the retried request also answers
401, the helper throws the auth-kind classification of that 401 instead
of refreshing or retrying again, still with exactly 2 provider
invocations and 2 HTTP attempts. -/
theorem C1_401_refresh_retry :
    (∀ (cfg : ClientConfig) (url t0 t1 : String)
      (provider : Nat → Except String String)
      (http : Nat → HttpRequest → AttemptOutcome) (r401 rOK : Response)
      (j : JsonBody),
      provider 0 = Except.ok t0 → provider 1 = Except.ok t1 → t1 ≠ "" →
      r401.status = 401 → rOK.status = 200 → rOK.jsonBody = some j →
      (∀ i req, req.headers = stdHeaders cfg.apiKey t0 →
        http i req = AttemptOutcome.response r401) →
      (∀ i req, req.headers = stdHeaders cfg.apiKey t1 →
        http i req = AttemptOutcome.response rOK) →
      clientGet cfg provider http url initialTokenState 0 =
        ⟨Except.ok (some j), ⟨some t1, none, 2, 2⟩, 2,
          [⟨"GET", url, stdHeaders cfg.apiKey t0, none⟩,
            ⟨"GET", url, stdHeaders cfg.apiKey t1, none⟩]⟩) ∧
    (∀ (cfg : ClientConfig) (url t0 t1 : String)
      (provider : Nat → Except String String)
      (http : Nat → HttpRequest → AttemptOutcome) (r401 : Response),
      provider 0 = Except.ok t0 → provider 1 = Except.ok t1 → t1 ≠ "" →
      r401.status = 401 →
      (∀ i req, http i req = AttemptOutcome.response r401) →
      clientGet cfg provider http url initialTokenState 0 =
        ⟨Except.error (ClientError.api (VenalabsApiError.fromResponse 401
            (some (parseJsonOrEmpty r401)))),
          ⟨some t1, none, 2, 2⟩, 2,
          [⟨"GET", url, stdHeaders cfg.apiKey t0, none⟩,
            ⟨"GET", url, stdHeaders cfg.apiKey t1, none⟩]⟩ ∧
      (VenalabsApiError.fromResponse 401
        (some (parseJsonOrEmpty r401))).isAuthError = true) ∧
    (∀ (cfg : ClientConfig) (url t0 t1 : String) (b : Option String)
      (provider : Nat → Except String String)
      (http : Nat → HttpRequest → AttemptOutcome) (r401 rOK : Response)
      (j : JsonBody),
      provider 0 = Except.ok t0 → provider 1 = Except.ok t1 → t1 ≠ "" →
      r401.status = 401 → rOK.status = 200 → rOK.jsonBody = some j →
      rOK.contentLength ≠ some "0" →
      (∀ i req, req.headers = stdHeaders cfg.apiKey t0 →
        http i req = AttemptOutcome.response r401) →
      (∀ i req, req.headers = stdHeaders cfg.apiKey t1 →
        http i req = AttemptOutcome.response rOK) →
      clientPost cfg provider http url b initialTokenState 0 =
        ⟨Except.ok (some j), ⟨some t1, none, 2, 2⟩, 2,
          [⟨"POST", url, stdHeaders cfg.apiKey t0, b⟩,
            ⟨"POST", url, stdHeaders cfg.apiKey t1, b⟩]⟩) ∧
    (∀ (cfg : ClientConfig) (url t0 t1 : String) (b : Option String)
      (provider : Nat → Except String String)
      (http : Nat → HttpRequest → AttemptOutcome) (r401 : Response),
      provider 0 = Except.ok t0 → provider 1 = Except.ok t1 → t1 ≠ "" →
      r401.status = 401 →
      (∀ i req, http i req = AttemptOutcome.response r401) →
      clientPost cfg provider http url b initialTokenState 0 =
        ⟨Except.error (ClientError.api (VenalabsApiError.fromResponse 401
            (some (parseJsonOrEmpty r401)))),
          ⟨some t1, none, 2, 2⟩, 2,
          [⟨"POST", url, stdHeaders cfg.apiKey t0, b⟩,
            ⟨"POST", url, stdHeaders cfg.apiKey t1, b⟩]⟩ ∧
      (VenalabsApiError.fromResponse 401
        (some (parseJsonOrEmpty r401))).isAuthError = true) := by
  refine ⟨?_, ?_, ?_, ?_⟩
  · intro cfg url t0 t1 provider http r401 rOK j hp0 hp1 ht1 hs1 hs2 hj
      h401 hOK
    have hh0 : getHeaders cfg.apiKey provider initialTokenState =
        (⟨some t0, none, 1, 1⟩, Except.ok (stdHeaders cfg.apiKey t0)) := by
      have := getHeaders_uncached cfg.apiKey provider initialTokenState t0
        rfl rfl hp0
      simpa [initialTokenState] using this
    have hr401nr : isRetryableStatus r401.status = false := by
      rw [hs1]; decide
    have hf0 := clientFetch_response "GET" cfg provider http url none
      initialTokenState 0 ⟨some t0, none, 1, 1⟩ (stdHeaders cfg.apiKey t0)
      r401 hh0 (h401 0 ⟨"GET", url, stdHeaders cfg.apiKey t0, none⟩ rfl)
      hr401nr
    have h401b : (r401.status == 401) = true := by rw [hs1]; rfl
    have href : refreshToken provider (clearToken ⟨some t0, none, 1, 1⟩) =
        (⟨some t1, none, 2, 2⟩, Except.ok t1) := by
      have := refreshToken_idle provider
        (clearToken ⟨some t0, none, 1, 1⟩) t1 rfl hp1
      simpa [clearToken] using this
    have hh1 : getHeaders cfg.apiKey provider ⟨some t1, none, 2, 2⟩ =
        (⟨some t1, none, 2, 2⟩, Except.ok (stdHeaders cfg.apiKey t1)) :=
      getHeaders_cached cfg.apiKey provider _ t1 rfl ht1
    have hrOKnr : isRetryableStatus rOK.status = false := by
      rw [hs2]; decide
    have hf1 := clientFetch_response "GET" cfg provider http url none
      ⟨some t1, none, 2, 2⟩ 1 ⟨some t1, none, 2, 2⟩
      (stdHeaders cfg.apiKey t1) rOK hh1
      (hOK 1 ⟨"GET", url, stdHeaders cfg.apiKey t1, none⟩ rfl) hrOKnr
    have hfin : finishGet rOK = Except.ok (some j) := by
      simp [finishGet, Response.ok, hs2, hj]
    have hretry := clientGetRetry_response cfg provider http url
      ⟨some t1, none, 2, 2⟩ 1 ⟨some t1, none, 2, 2⟩ 1
      [⟨"GET", url, stdHeaders cfg.apiKey t1, none⟩] rOK hf1
    rw [clientGet_401_refresh cfg provider http url initialTokenState 0
      ⟨some t0, none, 1, 1⟩ 1 [⟨"GET", url, stdHeaders cfg.apiKey t0, none⟩]
      r401 ⟨some t1, none, 2, 2⟩ t1 hf0 h401b href]
    simp only [Nat.zero_add]
    rw [hretry]
    simp [hfin]
  · intro cfg url t0 t1 provider http r401 hp0 hp1 ht1 hs1 h401all
    have hh0 : getHeaders cfg.apiKey provider initialTokenState =
        (⟨some t0, none, 1, 1⟩, Except.ok (stdHeaders cfg.apiKey t0)) := by
      have := getHeaders_uncached cfg.apiKey provider initialTokenState t0
        rfl rfl hp0
      simpa [initialTokenState] using this
    have hr401nr : isRetryableStatus r401.status = false := by
      rw [hs1]; decide
    have hf0 := clientFetch_response "GET" cfg provider http url none
      initialTokenState 0 ⟨some t0, none, 1, 1⟩ (stdHeaders cfg.apiKey t0)
      r401 hh0 (h401all 0 ⟨"GET", url, stdHeaders cfg.apiKey t0, none⟩)
      hr401nr
    have h401b : (r401.status == 401) = true := by rw [hs1]; rfl
    have href : refreshToken provider (clearToken ⟨some t0, none, 1, 1⟩) =
        (⟨some t1, none, 2, 2⟩, Except.ok t1) := by
      have := refreshToken_idle provider
        (clearToken ⟨some t0, none, 1, 1⟩) t1 rfl hp1
      simpa [clearToken] using this
    have hh1 : getHeaders cfg.apiKey provider ⟨some t1, none, 2, 2⟩ =
        (⟨some t1, none, 2, 2⟩, Except.ok (stdHeaders cfg.apiKey t1)) :=
      getHeaders_cached cfg.apiKey provider _ t1 rfl ht1
    have hf1 := clientFetch_response "GET" cfg provider http url none
      ⟨some t1, none, 2, 2⟩ 1 ⟨some t1, none, 2, 2⟩
      (stdHeaders cfg.apiKey t1) r401 hh1
      (h401all 1 ⟨"GET", url, stdHeaders cfg.apiKey t1, none⟩) hr401nr
    have hok401 : r401.ok = false := by
      simp [Response.ok, hs1]
    have hfin : finishGet r401 = Except.error (ClientError.api
        (VenalabsApiError.fromResponse 401 (some (parseJsonOrEmpty r401)))) := by
      simp [finishGet, hok401, hs1]
    have hretry := clientGetRetry_response cfg provider http url
      ⟨some t1, none, 2, 2⟩ 1 ⟨some t1, none, 2, 2⟩ 1
      [⟨"GET", url, stdHeaders cfg.apiKey t1, none⟩] r401 hf1
    constructor
    · rw [clientGet_401_refresh cfg provider http url initialTokenState 0
        ⟨some t0, none, 1, 1⟩ 1
        [⟨"GET", url, stdHeaders cfg.apiKey t0, none⟩]
        r401 ⟨some t1, none, 2, 2⟩ t1 hf0 h401b href]
      simp only [Nat.zero_add]
      rw [hretry]
      simp [hfin]
    · exact fromResponse_401_isAuthError (some (parseJsonOrEmpty r401))
  · intro cfg url t0 t1 b provider http r401 rOK j hp0 hp1 ht1 hs1 hs2 hj
      hcl h401 hOK
    have hh0 : getHeaders cfg.apiKey provider initialTokenState =
        (⟨some t0, none, 1, 1⟩, Except.ok (stdHeaders cfg.apiKey t0)) := by
      have := getHeaders_uncached cfg.apiKey provider initialTokenState t0
        rfl rfl hp0
      simpa [initialTokenState] using this
    have hr401nr : isRetryableStatus r401.status = false := by
      rw [hs1]; decide
    have hf0 := clientFetch_response "POST" cfg provider http url b
      initialTokenState 0 ⟨some t0, none, 1, 1⟩ (stdHeaders cfg.apiKey t0)
      r401 hh0 (h401 0 ⟨"POST", url, stdHeaders cfg.apiKey t0, b⟩ rfl)
      hr401nr
    have h401b : (r401.status == 401) = true := by rw [hs1]; rfl
    have href : refreshToken provider (clearToken ⟨some t0, none, 1, 1⟩) =
        (⟨some t1, none, 2, 2⟩, Except.ok t1) := by
      have := refreshToken_idle provider
        (clearToken ⟨some t0, none, 1, 1⟩) t1 rfl hp1
      simpa [clearToken] using this
    have hh1 : getHeaders cfg.apiKey provider ⟨some t1, none, 2, 2⟩ =
        (⟨some t1, none, 2, 2⟩, Except.ok (stdHeaders cfg.apiKey t1)) :=
      getHeaders_cached cfg.apiKey provider _ t1 rfl ht1
    have hrOKnr : isRetryableStatus rOK.status = false := by
      rw [hs2]; decide
    have hf1 := clientFetch_response "POST" cfg provider http url b
      ⟨some t1, none, 2, 2⟩ 1 ⟨some t1, none, 2, 2⟩
      (stdHeaders cfg.apiKey t1) rOK hh1
      (hOK 1 ⟨"POST", url, stdHeaders cfg.apiKey t1, b⟩ rfl) hrOKnr
    have hfin : finishPost rOK = Except.ok (some j) := by
      simp [finishPost, Response.ok, hs2, hj, hcl]
    have hretry := clientPostRetry_response cfg provider http url b
      ⟨some t1, none, 2, 2⟩ 1 ⟨some t1, none, 2, 2⟩ 1
      [⟨"POST", url, stdHeaders cfg.apiKey t1, b⟩] rOK hf1
    rw [clientPost_401_refresh cfg provider http url b initialTokenState 0
      ⟨some t0, none, 1, 1⟩ 1 [⟨"POST", url, stdHeaders cfg.apiKey t0, b⟩]
      r401 ⟨some t1, none, 2, 2⟩ t1 hf0 h401b href]
    simp only [Nat.zero_add]
    rw [hretry]
    simp [hfin]
  · intro cfg url t0 t1 b provider http r401 hp0 hp1 ht1 hs1 h401all
    have hh0 : getHeaders cfg.apiKey provider initialTokenState =
        (⟨some t0, none, 1, 1⟩, Except.ok (stdHeaders cfg.apiKey t0)) := by
      have := getHeaders_uncached cfg.apiKey provider initialTokenState t0
        rfl rfl hp0
      simpa [initialTokenState] using this
    have hr401nr : isRetryableStatus r401.status = false := by
      rw [hs1]; decide
    have hf0 := clientFetch_response "POST" cfg provider http url b
      initialTokenState 0 ⟨some t0, none, 1, 1⟩ (stdHeaders cfg.apiKey t0)
      r401 hh0 (h401all 0 ⟨"POST", url, stdHeaders cfg.apiKey t0, b⟩)
      hr401nr
    have h401b : (r401.status == 401) = true := by rw [hs1]; rfl
    have href : refreshToken provider (clearToken ⟨some t0, none, 1, 1⟩) =
        (⟨some t1, none, 2, 2⟩, Except.ok t1) := by
      have := refreshToken_idle provider
        (clearToken ⟨some t0, none, 1, 1⟩) t1 rfl hp1
      simpa [clearToken] using this
    have hh1 : getHeaders cfg.apiKey provider ⟨some t1, none, 2, 2⟩ =
        (⟨some t1, none, 2, 2⟩, Except.ok (stdHeaders cfg.apiKey t1)) :=
      getHeaders_cached cfg.apiKey provider _ t1 rfl ht1
    have hf1 := clientFetch_response "POST" cfg provider http url b
      ⟨some t1, none, 2, 2⟩ 1 ⟨some t1, none, 2, 2⟩
      (stdHeaders cfg.apiKey t1) r401 hh1
      (h401all 1 ⟨"POST", url, stdHeaders cfg.apiKey t1, b⟩) hr401nr
    have hok401 : r401.ok = false := by
      simp [Response.ok, hs1]
    have hfin : finishPost r401 = Except.error (ClientError.api
        (VenalabsApiError.fromResponse 401 (some (parseJsonOrEmpty r401)))) := by
      simp [finishPost, hok401, hs1]
    have hretry := clientPostRetry_response cfg provider http url b
      ⟨some t1, none, 2, 2⟩ 1 ⟨some t1, none, 2, 2⟩ 1
      [⟨"POST", url, stdHeaders cfg.apiKey t1, b⟩] r401 hf1
    constructor
    · rw [clientPost_401_refresh cfg provider http url b initialTokenState 0
        ⟨some t0, none, 1, 1⟩ 1
        [⟨"POST", url, stdHeaders cfg.apiKey t0, b⟩]
        r401 ⟨some t1, none, 2, 2⟩ t1 hf0 h401b href]
      simp only [Nat.zero_add]
      rw [hretry]
      simp [hfin]
    · exact fromResponse_401_isAuthError (some (parseJsonOrEmpty r401))

/-- Witness for C1 at concrete inputs: an expired-then-fresh provider
against a server that answers 401 to the expired token (refresh succeeds),
and against a server that always answers 401 (auth error after exactly one
retry); GET and POST alike. -/
theorem C1_401_refresh_retry_witness :
    clientGet sampleCfg expiredThenFresh http401ThenOk "u"
        initialTokenState 0 =
      ⟨Except.ok (some sampleBody), ⟨some "fresh-token", none, 2, 2⟩, 2,
        [⟨"GET", "u", stdHeaders sampleCfg.apiKey "expired-token", none⟩,
          ⟨"GET", "u", stdHeaders sampleCfg.apiKey "fresh-token", none⟩]⟩ ∧
    (clientGet sampleCfg expiredThenFresh (constHttp expired401) "u"
        initialTokenState 0 =
      ⟨Except.error (ClientError.api (VenalabsApiError.fromResponse 401
          (some (parseJsonOrEmpty expired401)))),
        ⟨some "fresh-token", none, 2, 2⟩, 2,
        [⟨"GET", "u", stdHeaders sampleCfg.apiKey "expired-token", none⟩,
          ⟨"GET", "u", stdHeaders sampleCfg.apiKey "fresh-token", none⟩]⟩ ∧
      (VenalabsApiError.fromResponse 401
        (some (parseJsonOrEmpty expired401))).isAuthError = true) ∧
    clientPost sampleCfg expiredThenFresh http401ThenOk "u" none
        initialTokenState 0 =
      ⟨Except.ok (some sampleBody), ⟨some "fresh-token", none, 2, 2⟩, 2,
        [⟨"POST", "u", stdHeaders sampleCfg.apiKey "expired-token", none⟩,
          ⟨"POST", "u", stdHeaders sampleCfg.apiKey "fresh-token", none⟩]⟩ ∧
    (clientPost sampleCfg expiredThenFresh (constHttp expired401) "u" none
        initialTokenState 0 =
      ⟨Except.error (ClientError.api (VenalabsApiError.fromResponse 401
          (some (parseJsonOrEmpty expired401)))),
        ⟨some "fresh-token", none, 2, 2⟩, 2,
        [⟨"POST", "u", stdHeaders sampleCfg.apiKey "expired-token", none⟩,
          ⟨"POST", "u", stdHeaders sampleCfg.apiKey "fresh-token", none⟩]⟩ ∧
      (VenalabsApiError.fromResponse 401
        (some (parseJsonOrEmpty expired401))).isAuthError = true) := by
  refine ⟨?_, ?_, ?_, ?_⟩
  · exact C1_401_refresh_retry.1 sampleCfg "u" "expired-token" "fresh-token"
      expiredThenFresh http401ThenOk expired401 okJsonResponse sampleBody
      rfl rfl (by decide) rfl rfl rfl
      (fun i req h => by
        simp only [http401ThenOk]
        rw [h]
        exact if_neg (by decide))
      (fun i req h => by
        simp only [http401ThenOk]
        rw [h]
        exact if_pos (by decide))
  · exact C1_401_refresh_retry.2.1 sampleCfg "u" "expired-token"
      "fresh-token" expiredThenFresh (constHttp expired401) expired401
      rfl rfl (by decide) rfl (fun i req => rfl)
  · exact C1_401_refresh_retry.2.2.1 sampleCfg "u" "expired-token"
      "fresh-token" none expiredThenFresh http401ThenOk expired401
      okJsonResponse sampleBody rfl rfl (by decide) rfl rfl rfl (by decide)
      (fun i req h => by
        simp only [http401ThenOk]
        rw [h]
        exact if_neg (by decide))
      (fun i req h => by
        simp only [http401ThenOk]
        rw [h]
        exact if_pos (by decide))
  · exact C1_401_refresh_retry.2.2.2 sampleCfg "u" "expired-token"
      "fresh-token" none expiredThenFresh (constHttp expired401) expired401
      rfl rfl (by decide) rfl (fun i req => rfl)

/-- The get helper against an idle coordinator and a world that always
answers the same non-retryable non-401 response. -/
theorem clientGet_const_response (cfg : ClientConfig)
    (provider : Nat → Except String String) (t : String) (url : String)
    (r : Response) (hp0 : provider 0 = Except.ok t)
    (hnr : isRetryableStatus r.status = false)
    (h401 : (r.status == 401) = false) :
    clientGet cfg provider (constHttp r) url initialTokenState 0 =
      ⟨finishGet r, ⟨some t, none, 1, 1⟩, 1,
        [⟨"GET", url, stdHeaders cfg.apiKey t, none⟩]⟩ := by
  have hh0 : getHeaders cfg.apiKey provider initialTokenState =
      (⟨some t, none, 1, 1⟩, Except.ok (stdHeaders cfg.apiKey t)) := by
    have := getHeaders_uncached cfg.apiKey provider initialTokenState t
      rfl rfl hp0
    simpa [initialTokenState] using this
  have hf0 := clientFetch_response "GET" cfg provider (constHttp r) url none
    initialTokenState 0 ⟨some t, none, 1, 1⟩ (stdHeaders cfg.apiKey t) r
    hh0 rfl hnr
  exact clientGet_no401 cfg provider (constHttp r) url initialTokenState 0
    ⟨some t, none, 1, 1⟩ 1 [⟨"GET", url, stdHeaders cfg.apiKey t, none⟩] r
    hf0 h401

/-! ## Claim theorems: NOT_FOUND swallowing -/

/-- Claim C6: getCourseProgress is the operation that swallows NOT_FOUND —
a NOT_FOUND VenalabsApiError from its underlying get resolves to a
successful null result, while every other error (other api kinds, plain
errors, provider rejections) propagates; on the same always-404 world,
getCourse throws the NOT_FOUND-kind error that getCourseProgress converts
to null. -/
theorem C6_not_found_swallowing :
    (∀ (cfg : ClientConfig) (provider : Nat → Except String String)
      (http : Nat → HttpRequest → AttemptOutcome) (courseId : String)
      (s : TokenState) (e : VenalabsApiError), truthyStr courseId = true →
      (clientGet cfg provider http
        (sdkUrl cfg ("/progress/" ++ encodeURIComponent courseId))
        s 0).result = Except.error (ClientError.api e) →
      e.code = VenalabsErrorCode.NOT_FOUND →
      (getCourseProgress cfg provider http courseId s).result =
        Except.ok none) ∧
    (∀ (cfg : ClientConfig) (provider : Nat → Except String String)
      (http : Nat → HttpRequest → AttemptOutcome) (courseId : String)
      (s : TokenState) (e : VenalabsApiError), truthyStr courseId = true →
      (clientGet cfg provider http
        (sdkUrl cfg ("/progress/" ++ encodeURIComponent courseId))
        s 0).result = Except.error (ClientError.api e) →
      e.code ≠ VenalabsErrorCode.NOT_FOUND →
      (getCourseProgress cfg provider http courseId s).result =
        Except.error (ClientError.api e)) ∧
    (∀ (cfg : ClientConfig) (provider : Nat → Except String String)
      (http : Nat → HttpRequest → AttemptOutcome) (courseId : String)
      (s : TokenState) (m : String), truthyStr courseId = true →
      (clientGet cfg provider http
        (sdkUrl cfg ("/progress/" ++ encodeURIComponent courseId))
        s 0).result = Except.error (ClientError.plain m) →
      (getCourseProgress cfg provider http courseId s).result =
        Except.error (ClientError.plain m)) ∧
    (∀ (cfg : ClientConfig) (provider : Nat → Except String String)
      (http : Nat → HttpRequest → AttemptOutcome) (courseId : String)
      (s : TokenState) (m : String), truthyStr courseId = true →
      (clientGet cfg provider http
        (sdkUrl cfg ("/progress/" ++ encodeURIComponent courseId))
        s 0).result = Except.error (ClientError.provider m) →
      (getCourseProgress cfg provider http courseId s).result =
        Except.error (ClientError.provider m)) ∧
    (∀ (cfg : ClientConfig) (provider : Nat → Except String String)
      (t courseId : String) (b : JsonBody), provider 0 = Except.ok t →
      truthyStr courseId = true →
      (getCourse cfg provider (constHttp ⟨404, none, some b⟩) courseId
          initialTokenState).result =
        Except.error (ClientError.api
          (VenalabsApiError.fromResponse 404 (some b))) ∧
      (VenalabsApiError.fromResponse 404 (some b)).code =
        VenalabsErrorCode.NOT_FOUND ∧
      (getCourseProgress cfg provider (constHttp ⟨404, none, some b⟩)
          courseId initialTokenState).result = Except.ok none) := by
  refine ⟨?_, ?_, ?_, ?_, ?_⟩
  · intro cfg provider http courseId s e h hr hcode
    simp only [getCourseProgress, h, Bool.not_true, Bool.false_eq_true,
      if_false]
    rw [hr]
    simp [hcode]
  · intro cfg provider http courseId s e h hr hcode
    simp only [getCourseProgress, h, Bool.not_true, Bool.false_eq_true,
      if_false]
    rw [hr]
    simp [hcode, hr]
  · intro cfg provider http courseId s m h hr
    simp only [getCourseProgress, h, Bool.not_true, Bool.false_eq_true,
      if_false]
    rw [hr]
    simp [hr]
  · intro cfg provider http courseId s m h hr
    simp only [getCourseProgress, h, Bool.not_true, Bool.false_eq_true,
      if_false]
    rw [hr]
    simp [hr]
  · intro cfg provider t courseId b hp0 hcid
    have hnr : isRetryableStatus (404 : Nat) = false := by decide
    have h401 : ((404 : Nat) == 401) = false := by decide
    have hfin : finishGet ⟨404, none, some b⟩ = Except.error (ClientError.api
        (VenalabsApiError.fromResponse 404 (some b))) := by
      simp [finishGet, Response.ok, parseJsonOrEmpty]
    have hget := clientGet_const_response cfg provider t
      (sdkUrl cfg ("/courses/" ++ encodeURIComponent courseId))
      ⟨404, none, some b⟩ hp0 hnr h401
    have hgetp := clientGet_const_response cfg provider t
      (sdkUrl cfg ("/progress/" ++ encodeURIComponent courseId))
      ⟨404, none, some b⟩ hp0 hnr h401
    have hcode : (VenalabsApiError.fromResponse 404 (some b)).code =
        VenalabsErrorCode.NOT_FOUND := by
      simp [VenalabsApiError.fromResponse]
    refine ⟨?_, hcode, ?_⟩
    · simp only [getCourse, hcid, Bool.not_true, Bool.false_eq_true,
        if_false]
      rw [hget, hfin]
    · simp only [getCourseProgress, hcid, Bool.not_true, Bool.false_eq_true,
        if_false]
      rw [hgetp]
      simp [hfin, hcode]

/-- Witness for C6: a concrete 404 world where getCourseProgress resolves
to null while getCourse throws the NOT_FOUND error. -/
theorem C6_not_found_swallowing_witness :
    (getCourse sampleCfg (constProvider "valid-token")
        (constHttp notFound404) "course-1" initialTokenState).result =
      Except.error (ClientError.api (VenalabsApiError.fromResponse 404
        (some ⟨some 404, some "NOT_FOUND", some "Course not found", ""⟩))) ∧
    (VenalabsApiError.fromResponse 404
      (some ⟨some 404, some "NOT_FOUND", some "Course not found", ""⟩)).code =
        VenalabsErrorCode.NOT_FOUND ∧
    (getCourseProgress sampleCfg (constProvider "valid-token")
        (constHttp notFound404) "course-1" initialTokenState).result =
      Except.ok none := by
  exact C6_not_found_swallowing.2.2.2.2 sampleCfg (constProvider "valid-token")
    "valid-token" "course-1" ⟨some 404, some "NOT_FOUND", some "Course not found", ""⟩
    rfl (by decide)

/-! ## Claim theorems: 204 and empty-body handling -/

/-- Claim C8 counterexample: a GET whose success response is a 204 with an
empty body does not resolve to a no-value result — the get helper always
calls response.json(), which rejects on the empty body — refuting the
claim that the 204/empty-body rule applies to every operation, GET and
POST alike. -/
theorem C8_counterexample :
    (clientGet sampleCfg (constProvider "valid-token")
        (constHttp noContent204) (sdkUrl sampleCfg "/maps")
        initialTokenState 0).result =
      Except.error (ClientError.plain "JSON parse error") := rfl

/-- Claim C8 as amended: only the post helper resolves a 204 status or an
empty (content-length "0") success body to an explicit no-value result
without parsing; on other success responses it parses the body, and the
get helper always parses the body as JSON, whatever the status. -/
theorem C8_post_no_content :
    (∀ r : Response, r.ok = true →
      (r.status = 204 ∨ r.contentLength = some "0") →
      finishPost r = Except.ok none) ∧
    (∀ r : Response, r.ok = true → r.status ≠ 204 →
      r.contentLength ≠ some "0" →
      finishPost r = match r.jsonBody with
        | some j => Except.ok (some j)
        | none => Except.error (ClientError.plain "JSON parse error")) ∧
    (∀ r : Response, r.ok = true →
      finishGet r = match r.jsonBody with
        | some j => Except.ok (some j)
        | none => Except.error (ClientError.plain "JSON parse error")) ∧
    (clientPost sampleCfg (constProvider "valid-token")
        (constHttp noContent204) (sdkUrl sampleCfg "/maps") none
        initialTokenState 0).result = Except.ok none := by
  refine ⟨?_, ?_, ?_, rfl⟩
  · intro r h h2
    have hcond : (r.status == 204 || r.contentLength == some "0") = true := by
      cases h2 with
      | inl h3 => simp [h3]
      | inr h3 => simp [h3]
    simp [finishPost, h, hcond]
  · intro r h h204 hcl
    simp [finishPost, h, h204, hcl]
  · intro r h
    simp [finishGet, h]

/-- Witness for the amended C8 at concrete responses. -/
theorem C8_post_no_content_witness :
    finishPost noContent204 = Except.ok none ∧
    finishPost okJsonResponse = Except.ok (some sampleBody) ∧
    finishGet okJsonResponse = Except.ok (some sampleBody) := by
  refine ⟨?_, ?_, ?_⟩
  · exact C8_post_no_content.1 noContent204 (by decide) (Or.inl rfl)
  · rw [C8_post_no_content.2.1 okJsonResponse (by decide) (by decide)
      (by decide)]
    rfl
  · rw [C8_post_no_content.2.2.1 okJsonResponse (by decide)]
    rfl

/-! ## Claim theorems: local argument validation -/

/-- Claim C9: every exposed operation with required identifier arguments
fails on an empty-string argument with a local plain validation error
before any network activity — the returned trace leaves the token state
untouched (no provider invocation), issues zero HTTP attempts and no
request envelope, so nothing is retried or auth-refreshed. -/
theorem C9_local_validation :
    (∀ (cfg : ClientConfig) (provider : Nat → Except String String)
      (http : Nat → HttpRequest → AttemptOutcome) (s : TokenState),
      getCourse cfg provider http "" s =
        validationFailure "courseId is required" s) ∧
    (∀ (cfg : ClientConfig) (provider : Nat → Except String String)
      (http : Nat → HttpRequest → AttemptOutcome) (s : TokenState),
      startCourse cfg provider http "" s =
        validationFailure "courseId is required" s) ∧
    (∀ (cfg : ClientConfig) (provider : Nat → Except String String)
      (http : Nat → HttpRequest → AttemptOutcome) (sid : String)
      (req : Option (List (String × String))) (s : TokenState),
      completeStep cfg provider http "" sid req s =
        validationFailure "courseId is required" s) ∧
    (∀ (cfg : ClientConfig) (provider : Nat → Except String String)
      (http : Nat → HttpRequest → AttemptOutcome) (cid : String)
      (req : Option (List (String × String))) (s : TokenState), cid ≠ "" →
      completeStep cfg provider http cid "" req s =
        validationFailure "stepId is required" s) ∧
    (∀ (cfg : ClientConfig) (provider : Nat → Except String String)
      (http : Nat → HttpRequest → AttemptOutcome) (s : TokenState),
      getCourseProgress cfg provider http "" s =
        validationFailure "courseId is required" s) ∧
    (∀ (cfg : ClientConfig) (provider : Nat → Except String String)
      (http : Nat → HttpRequest → AttemptOutcome) (s : TokenState),
      getWalletNonce cfg provider http "" s =
        validationFailure "walletAddress is required" s) ∧
    (∀ (cfg : ClientConfig) (provider : Nat → Except String String)
      (http : Nat → HttpRequest → AttemptOutcome) (sig : String)
      (s : TokenState),
      linkStellarWallet cfg provider http "" sig s =
        validationFailure "walletAddress is required" s) ∧
    (∀ (cfg : ClientConfig) (provider : Nat → Except String String)
      (http : Nat → HttpRequest → AttemptOutcome) (w : String)
      (s : TokenState), w ≠ "" →
      linkStellarWallet cfg provider http w "" s =
        validationFailure "signature is required" s) ∧
    (∀ (cfg : ClientConfig) (provider : Nat → Except String String)
      (http : Nat → HttpRequest → AttemptOutcome) (sid : String)
      (s : TokenState),
      verifyStep cfg provider http "" sid s =
        validationFailure "courseId is required" s) ∧
    (∀ (cfg : ClientConfig) (provider : Nat → Except String String)
      (http : Nat → HttpRequest → AttemptOutcome) (cid : String)
      (s : TokenState), cid ≠ "" →
      verifyStep cfg provider http cid "" s =
        validationFailure "stepId is required" s) ∧
    (∀ (cfg : ClientConfig) (provider : Nat → Except String String)
      (http : Nat → HttpRequest → AttemptOutcome) (sid : String)
      (s : TokenState),
      getNftVoucher cfg provider http "" sid s =
        validationFailure "courseId is required" s) ∧
    (∀ (cfg : ClientConfig) (provider : Nat → Except String String)
      (http : Nat → HttpRequest → AttemptOutcome) (cid : String)
      (s : TokenState), cid ≠ "" →
      getNftVoucher cfg provider http cid "" s =
        validationFailure "stepId is required" s) ∧
    (∀ (cfg : ClientConfig) (provider : Nat → Except String String)
      (http : Nat → HttpRequest → AttemptOutcome) (sid tx : String)
      (s : TokenState),
      verifyNftMint cfg provider http "" sid tx s =
        validationFailure "courseId is required" s) ∧
    (∀ (cfg : ClientConfig) (provider : Nat → Except String String)
      (http : Nat → HttpRequest → AttemptOutcome) (cid tx : String)
      (s : TokenState), cid ≠ "" →
      verifyNftMint cfg provider http cid "" tx s =
        validationFailure "stepId is required" s) ∧
    (∀ (cfg : ClientConfig) (provider : Nat → Except String String)
      (http : Nat → HttpRequest → AttemptOutcome) (cid sid : String)
      (s : TokenState), cid ≠ "" → sid ≠ "" →
      verifyNftMint cfg provider http cid sid "" s =
        validationFailure "txHash is required" s) ∧
    (∀ (msg : String) (s : TokenState),
      (validationFailure msg s).result =
        Except.error (ClientError.plain msg) ∧
      (validationFailure msg s).state = s ∧
      (validationFailure msg s).attempts = 0 ∧
      (validationFailure msg s).requests = []) := by
  refine ⟨?_, ?_, ?_, ?_, ?_, ?_, ?_, ?_, ?_, ?_, ?_, ?_, ?_, ?_, ?_, ?_⟩
  · intro cfg provider http s; simp [getCourse, truthyStr]
  · intro cfg provider http s; simp [startCourse, truthyStr]
  · intro cfg provider http sid req s; simp [completeStep, truthyStr]
  · intro cfg provider http cid req s hc
    simp [completeStep, truthyStr, hc]
  · intro cfg provider http s; simp [getCourseProgress, truthyStr]
  · intro cfg provider http s; simp [getWalletNonce, truthyStr]
  · intro cfg provider http sig s; simp [linkStellarWallet, truthyStr]
  · intro cfg provider http w s hw
    simp [linkStellarWallet, truthyStr, hw]
  · intro cfg provider http sid s; simp [verifyStep, truthyStr]
  · intro cfg provider http cid s hc; simp [verifyStep, truthyStr, hc]
  · intro cfg provider http sid s; simp [getNftVoucher, truthyStr]
  · intro cfg provider http cid s hc; simp [getNftVoucher, truthyStr, hc]
  · intro cfg provider http sid tx s; simp [verifyNftMint, truthyStr]
  · intro cfg provider http cid tx s hc
    simp [verifyNftMint, truthyStr, hc]
  · intro cfg provider http cid sid s hc hs
    simp [verifyNftMint, truthyStr, hc, hs]
  · intro msg s
    exact ⟨rfl, rfl, rfl, rfl⟩

/-- Witness for C9 at concrete inputs: empty identifiers fail locally with
the original token state, zero attempts and no envelopes. -/
theorem C9_local_validation_witness :
    getCourse sampleCfg (constProvider "valid-token")
        (constHttp okJsonResponse) "" initialTokenState =
      validationFailure "courseId is required" initialTokenState ∧
    completeStep sampleCfg (constProvider "valid-token")
        (constHttp okJsonResponse) "course-1" "" none initialTokenState =
      validationFailure "stepId is required" initialTokenState ∧
    verifyNftMint sampleCfg (constProvider "valid-token")
        (constHttp okJsonResponse) "course-1" "step-1" "" initialTokenState =
      validationFailure "txHash is required" initialTokenState ∧
    (validationFailure "courseId is required" initialTokenState).state =
      initialTokenState ∧
    (validationFailure "courseId is required" initialTokenState).attempts =
      0 := by
  refine ⟨?_, ?_, ?_, ?_, ?_⟩
  · exact C9_local_validation.1 sampleCfg (constProvider "valid-token")
      (constHttp okJsonResponse) initialTokenState
  · exact C9_local_validation.2.2.2.1 sampleCfg
      (constProvider "valid-token") (constHttp okJsonResponse) "course-1"
      none initialTokenState (by decide)
  · exact (C9_local_validation.2.2.2.2.2.2.2.2.2.2.2.2.2.2.1) sampleCfg
      (constProvider "valid-token") (constHttp okJsonResponse) "course-1"
      "step-1" initialTokenState (by decide) (by decide)
  · exact ((C9_local_validation.2.2.2.2.2.2.2.2.2.2.2.2.2.2.2)
      "courseId is required" initialTokenState).2.1
  · exact ((C9_local_validation.2.2.2.2.2.2.2.2.2.2.2.2.2.2.2)
      "courseId is required" initialTokenState).2.2.1
